import Mathlib

/-!
# Game of Life (`main.cpp`): a shallow embedding and its verified properties

The program keeps a grid of cells at process scope, and `main` runs a frame
loop over it: a neighbour-counting pass, an optional random revive, and a rule
pass that also queues the rectangles to draw.

Conventions of the embedding:

* `int32_t` / `int` values are `Int`, `unsigned int` values are `Nat`; the
  conversion `int -> unsigned int` is written out as `% 2 ^ 32`. Signed
  arithmetic is exact: the values formed in the frame loop (`x - 1`, `x + 1`,
  `columns - 1`, `x * entity_size`, a sum of eight flags) stay inside
  `int32_t` for every configuration that passed validation.
* Undefined behaviour (integer division by zero, an out-of-range
  `std::vector::operator[]`) is the value `none`.
* A `for` loop over `0 .. n-1` is a monadic left fold over `List.range`.
* An early `return` of `main` is the `Except.error` side of `Except`.
-/

namespace GameOfLife

/-! ## Data model -/

/-- The `Entity` struct: one cell of the grid. -/
structure Entity where
  alive : Bool
  neighbors : Int
  deriving DecidableEq, Repr

/-- The type of the global `entities`: a vector of rows, each a vector of cells. -/
abbrev Grid := List (List Entity)

/-- The variables the frame loop works on: the globals `window_width`,
`window_height`, `entity_size`, `entities`, and the locals `columns` and `rows`
of `main`, which are assigned once before the loop. -/
structure State where
  window_width : Int
  window_height : Int
  entity_size : Int
  entities : Grid
  columns : Int
  rows : Int
  deriving DecidableEq, Repr

/-- An `SDL_Rect` handed to `SDL_RenderFillRect`. -/
structure Rect where
  x : Int
  y : Int
  w : Int
  h : Int
  deriving DecidableEq, Repr

/-! ## Machine-level primitives -/

/-- Integer division of C++ (`/`): truncation towards zero, undefined for a zero divisor. -/
def c_div (a b : Int) : Option Int :=
  if b = 0 then none else some (Int.tdiv a b)

/-- Integer remainder of C++ (`%`): sign of the dividend, undefined for a zero divisor. -/
def c_mod (a b : Int) : Option Int :=
  if b = 0 then none else some (Int.tmod a b)

/-- Conversion `bool -> int` as it happens in `is_alive(..) + is_alive(..)`. -/
def b2i (b : Bool) : Int := if b then 1 else 0

/-- The access `v[i]` of a `std::vector` with an `int` index: the index is converted to
`size_t`, so a negative index is as far out of range as a too large one. -/
def vec_at {α : Type} (v : List α) (i : Int) : Option α :=
  if i < 0 then none else v[i.toNat]?

/-- The read `entities[y][x]`. -/
def entity_at (g : Grid) (y x : Int) : Option Entity := do
  let row ← vec_at g y
  vec_at row x

/-- The write `entities[y][x].field = ...`, given as the function applied to the cell. -/
def entity_update (g : Grid) (y x : Int) (f : Entity → Entity) : Option Grid := do
  let row ← vec_at g y
  let e ← vec_at row x
  some (g.set y.toNat (row.set x.toNat (f e)))

/-- The loop `for (int32_t i = 0; i < n; i++) body`, threading the state through. -/
def for_loop {σ : Type} (n : Int) (body : Int → σ → Option σ) (s : σ) : Option σ :=
  (List.range n.toNat).foldlM (fun (st : σ) (i : Nat) => body (i : Int) st) s

/-! ## The automaton -/

/-- The function `is_alive` (lines 22-30), with the short-circuit order of its `||` chain. -/
def is_alive (s : State) (x y : Int) : Option Bool :=
  if x < 0 then some false
  else if y < 0 then some false
  else do
    let c ← c_div s.window_width s.entity_size
    if x > c - 1 then some false
    else do
      let r ← c_div s.window_height s.entity_size
      if y > r - 1 then some false
      else do
        let e ← entity_at s.entities y x
        some e.alive

/-- The body of the counting loops (lines 247-259) for the cell `(x, y)`. -/
def count_cell (s : State) (x y : Int) : Option State := do
  let a1 ← is_alive s (x - 1) (y - 1)
  let a2 ← is_alive s x (y - 1)
  let a3 ← is_alive s (x + 1) (y - 1)
  let a4 ← is_alive s (x - 1) y
  let a5 ← is_alive s (x + 1) y
  let a6 ← is_alive s (x - 1) (y + 1)
  let a7 ← is_alive s x (y + 1)
  let a8 ← is_alive s (x + 1) (y + 1)
  let neighbor_count := b2i a1 + b2i a2 + b2i a3 + b2i a4 + b2i a5 + b2i a6 + b2i a7 + b2i a8
  let g ← entity_update s.entities y x (fun e => { e with neighbors := neighbor_count })
  some { s with entities := g }

/-- The counting pass (lines 244-260): it writes `neighbors` in place, cell after cell. -/
def count_pass (s : State) : Option State :=
  for_loop s.rows (fun y st => for_loop s.columns (fun x st1 => count_cell st1 x y) st) s

/-- The random revive (line 264), `r1` and `r2` being the two values `std::rand()` returns. -/
def revive (s : State) (r1 r2 : Nat) : Option State := do
  let y ← c_mod r1 s.rows
  let x ← c_mod r2 s.columns
  let g ← entity_update s.entities y x (fun e => { e with alive := true })
  some { s with entities := g }

/-- The body of the rule loops (lines 274-287) for the cell `(x, y)`; the second component
collects the rectangles passed to `SDL_RenderFillRect`, in order. -/
def rule_cell (x y : Int) (st : State × List Rect) : Option (State × List Rect) := do
  let s := st.1
  let e ← entity_at s.entities y x
  let neighbor_count := e.neighbors
  let rect : Rect := { x := x * s.entity_size, y := y * s.entity_size,
                       w := s.entity_size, h := s.entity_size }
  if neighbor_count = 3 then do
    let g ← entity_update s.entities y x (fun c => { c with alive := true })
    some ({ s with entities := g }, st.2 ++ [rect])
  else if neighbor_count < 2 ∨ neighbor_count > 3 then do
    let g ← entity_update s.entities y x (fun c => { c with alive := false })
    some ({ s with entities := g }, st.2)
  else
    some (s, st.2 ++ [rect])

/-- The rule pass with its drawing calls (lines 266-289). -/
def rule_pass (s : State) : Option (State × List Rect) :=
  for_loop s.rows
    (fun y st => for_loop s.columns (fun x st1 => rule_cell x y st1) st) (s, [])

/-- The automaton part of one iteration of the frame loop (lines 244-289): counting pass,
revive when `random_revive` is set, rule pass. -/
def frame (s : State) (random_revive : Bool) (r1 r2 : Nat) : Option (State × List Rect) := do
  let s1 ← count_pass s
  let s2 ← if random_revive then revive s1 r1 r2 else some s1
  rule_pass s2

/-! ## Start-up: options and grid dimensions (lines 32-138) -/

/-- The two exit statuses `main` returns. -/
inductive ExitStatus where
  | EXIT_SUCCESS
  | EXIT_FAILURE
  deriving DecidableEq, Repr

/-- The options as resolved by `main`: the globals `entity_size`, `window_width`,
`window_height` and the locals `fps_cap` (an `unsigned int`) and `random_revive`. -/
structure Config where
  entity_size : Int
  window_width : Int
  window_height : Int
  fps_cap : Nat
  random_revive : Bool
  deriving DecidableEq, Repr

/-- The initial values of these variables (lines 10-12 and 34-35). -/
def default_config : Config :=
  { entity_size := 5, window_width := 1280, window_height := 720, fps_cap := 60,
    random_revive := false }

/-- White space as `std::stoi` skips it (`isspace` in the C locale). -/
def isspace (c : Char) : Bool :=
  c.toNat = 32 || (9 ≤ c.toNat && c.toNat ≤ 13)

/-- The library function `std::stoi(str)` in base 10: leading white space, an optional sign,
then the longest run of digits; what follows is ignored. `none` stands for the exception it
throws, `std::invalid_argument` without a digit and `std::out_of_range` outside `int`. -/
def stoi (str : String) : Option Int :=
  let cs := str.toList.dropWhile isspace
  let signed : Bool × List Char :=
    match cs with
    | c :: rest =>
      if c.toNat = 45 then (true, rest) else if c.toNat = 43 then (false, rest) else (false, cs)
    | [] => (false, [])
  let digits := signed.2.takeWhile Char.isDigit
  if digits.isEmpty then none
  else
    let magnitude : Int := digits.foldl (fun acc d => 10 * acc + ((d.toNat : Int) - 48)) 0
    let value : Int := if signed.1 then -magnitude else magnitude
    if value < -2147483648 ∨ 2147483647 < value then none else some value

/-- The argument `argv[i]`, read only under the guard `argc >= i + 1`. -/
def arg (argv : List String) (i : Nat) : String := argv.getD i ""

/-- The text printed when `main` returns early, with its exit status. -/
abbrev Exit := ExitStatus × String

/-- The usage text of lines 39-47. -/
def usage_text : String :=
  "Usage: gol <entity-size> <width> <height> <fps-cap>\n" ++
  "<entity-size>: Size of each entity (default: 5, 0 to disable)\n" ++
  "<width>: Window width in pixels\n" ++
  "<height>: Window height in pixels\n" ++
  "(default: 1280x720)\n" ++
  "<fps-cap>: Maximum FPS (default: 60)\n" ++
  "<random-spawn>: Revive a random entity every frame (default: false)\n"

/-- The message of lines 60-62. -/
def entity_size_error : String := "Size of each entity must be larger than zero\n"

/-- The message of lines 81-82. -/
def window_width_error : String := "Window width must be larger than zero\n"

/-- The message of lines 101-102. -/
def window_height_error : String := "Window height must be larger than zero\n"

/-- The message of lines 121-122. -/
def fps_cap_error : String := "FPS cap must be larger or equal zero\n"

/-- Lines 52-71: the entity size; a thrown exception restores the default. -/
def parse_entity_size (argv : List String) (c : Config) : Except Exit Config :=
  if argv.length ≥ 2 then
    match stoi (arg argv 1) with
    | some v =>
      if v ≤ 0 then .error (ExitStatus.EXIT_SUCCESS, entity_size_error)
      else .ok { c with entity_size := v }
    | none => .ok { c with entity_size := 5 }
  else .ok c

/-- Lines 73-91: the window width. -/
def parse_window_width (argv : List String) (c : Config) : Except Exit Config :=
  if argv.length ≥ 3 then
    match stoi (arg argv 2) with
    | some v =>
      if v ≤ 0 then .error (ExitStatus.EXIT_SUCCESS, window_width_error)
      else .ok { c with window_width := v }
    | none => .ok { c with window_width := 1280 }
  else .ok c

/-- Lines 93-111: the window height. -/
def parse_window_height (argv : List String) (c : Config) : Except Exit Config :=
  if argv.length ≥ 4 then
    match stoi (arg argv 3) with
    | some v =>
      if v ≤ 0 then .error (ExitStatus.EXIT_SUCCESS, window_height_error)
      else .ok { c with window_height := v }
    | none => .ok { c with window_height := 720 }
  else .ok c

/-- Lines 113-131: the fps cap. The `int` that `std::stoi` returns is converted to the
`unsigned int` variable `fps_cap` before the comparison with zero. -/
def parse_fps_cap (argv : List String) (c : Config) : Except Exit Config :=
  if argv.length ≥ 5 then
    match stoi (arg argv 4) with
    | some v =>
      let fps_cap : Nat := (v % 2 ^ 32).toNat
      if fps_cap < 0 then .error (ExitStatus.EXIT_SUCCESS, fps_cap_error)
      else .ok { c with fps_cap := fps_cap }
    | none => .ok { c with fps_cap := 60 }
  else .ok c

/-- Lines 133-135: the random-revive flag. -/
def parse_random_revive (argv : List String) (c : Config) : Config :=
  if argv.length ≥ 6 then
    if arg argv 5 = "true" then { c with random_revive := true } else c
  else c

/-- Lines 37-135 of `main`: the usage text without arguments, then the options from left to
right; `Except.error` is an early `return`. -/
def parse_args (argv : List String) : Except Exit Config :=
  if argv.length ≤ 1 then .error (ExitStatus.EXIT_SUCCESS, usage_text)
  else do
    let c1 ← parse_entity_size argv default_config
    let c2 ← parse_window_width argv c1
    let c3 ← parse_window_height argv c2
    let c4 ← parse_fps_cap argv c3
    pure (parse_random_revive argv c4)

/-- Lines 137-138: `columns` and `rows`. -/
def grid_dims (c : Config) : Option (Int × Int) := do
  let columns ← c_div c.window_width c.entity_size
  let rows ← c_div c.window_height c.entity_size
  some (columns, rows)

/-! ## Reading a grid, and the reference step

These definitions follow the wording of the specification: a cell outside the grid is dead,
a neighbour count is taken over the eight surrounding coordinates, and the reference step
computes every count from the grid as it was before any cell changes. -/

/-- The alive flag of the cell at `(x, y)`; a coordinate outside the grid is dead. -/
def alive_at (g : Grid) (x y : Int) : Bool :=
  match entity_at g y x with
  | some e => e.alive
  | none => false

/-- The grid has the shape the configuration gives it: `columns` and `rows` are the quotients
of lines 137-138 by a positive entity size, and `entities` has `rows` rows of `columns` cells,
as built in lines 198-211. -/
def Shaped (s : State) : Prop :=
  0 < s.entity_size ∧
  s.columns = Int.tdiv s.window_width s.entity_size ∧
  s.rows = Int.tdiv s.window_height s.entity_size ∧
  (s.entities.length : Int) = s.rows ∧
  ∀ row ∈ s.entities, (row.length : Int) = s.columns

instance (s : State) : Decidable (Shaped s) := by
  unfold Shaped; infer_instance

/-- The eight coordinates around `(x, y)`, the cell itself excluded. -/
def surrounding (x y : Int) : List (Int × Int) :=
  [(x - 1, y - 1), (x, y - 1), (x + 1, y - 1), (x - 1, y), (x + 1, y),
   (x - 1, y + 1), (x, y + 1), (x + 1, y + 1)]

/-- The number of live cells among the eight surrounding coordinates. -/
def live_neighbours (g : Grid) (x y : Int) : Nat :=
  (surrounding x y).countP (fun p => alive_at g p.1 p.2)

/-- Cell-wise transformation of a grid, the transformation seeing the coordinates `x y`. -/
def gmap (F : Nat → Nat → Entity → Entity) (g : Grid) : Grid :=
  g.mapIdx fun y row => row.mapIdx fun x e => F x y e

/-- The reference B3/S23 step of the specification: all counts are taken from a snapshot of
the grid before the step, then every cell is set from its own count: alive on exactly three
live neighbours, or on exactly two when it was alive. -/
def reference_step (g : Grid) : Grid :=
  let snapshot : Nat → Nat → Nat := fun x y => live_neighbours g x y
  gmap (fun x y e =>
    { alive := decide (snapshot x y = 3 ∨ (snapshot x y = 2 ∧ e.alive = true)),
      neighbors := snapshot x y }) g

/-! ## Intermediate states of the two passes -/

/-- The grid in which the cells before `(kx, ky)` in row-major order have been transformed:
the state of an in-place pass when it reaches the cell `(kx, ky)`. -/
def stage (F : Nat → Nat → Entity → Entity) (g : Grid) (ky kx : Nat) : Grid :=
  gmap (fun x y e => if y < ky ∨ (y = ky ∧ x < kx) then F x y e else e) g

/-- The sum `count_cell` forms for `(x, y)`, over the alive flags of the grid `g`. -/
def neighbor_sum (g : Grid) (x y : Int) : Int :=
  b2i (alive_at g (x - 1) (y - 1)) + b2i (alive_at g x (y - 1)) + b2i (alive_at g (x + 1) (y - 1)) +
  b2i (alive_at g (x - 1) y) + b2i (alive_at g (x + 1) y) +
  b2i (alive_at g (x - 1) (y + 1)) + b2i (alive_at g x (y + 1)) + b2i (alive_at g (x + 1) (y + 1))

/-- What the counting pass does to the cell `(i, j)` when the alive flags are those of `g`. -/
def count_fn (g : Grid) (i j : Nat) (e : Entity) : Entity :=
  { e with neighbors := neighbor_sum g i j }

/-- What the rule pass does to one cell (lines 274-282). -/
def rule_fn (e : Entity) : Entity :=
  if e.neighbors = 3 then { e with alive := true }
  else if e.neighbors < 2 ∨ e.neighbors > 3 then { e with alive := false }
  else e

/-- What the revive does to the grid when it selects the cell `(x, y)`. -/
def revive_fn (x y : Nat) (i j : Nat) (e : Entity) : Entity :=
  if j = y ∧ i = x then { e with alive := true } else e

/-! ## Start-up: building the grid (lines 198-211) -/

/-- The constructor of `Entity` (lines 16-17), `r` being the value `std::rand()` returns. -/
def new_entity (r : Nat) : Entity :=
  { alive := r % 2 != 0, neighbors := 0 }

/-- A loop `for (int32_t i = 0; i < n; i++) body` whose body cannot fail. -/
def for_each {σ : Type} (n : Int) (body : Int → σ → σ) (s : σ) : σ :=
  (List.range n.toNat).foldl (fun (st : σ) (i : Nat) => body (i : Int) st) s

/-- The inner loop of lines 204-208: one row of `columns` fresh cells. The second component
counts the calls of `std::rand()` made so far, `rand k` being the value of call `k`. -/
def build_row (columns : Int) (rand : Nat → Nat) (calls : Nat) : List Entity × Nat :=
  for_each columns (fun _ st => (st.1 ++ [new_entity (rand st.2)], st.2 + 1)) ([], calls)

/-- The loops of lines 199-211, starting from the empty global `entities`. -/
def build_grid (rows columns : Int) (rand : Nat → Nat) : Grid :=
  (for_each rows (fun _ st =>
    let row := build_row columns rand st.2
    (st.1 ++ [row.1], row.2)) (([] : Grid), 0)).1

/-- The state in which `main` enters the frame loop for the configuration `c` (lines 137-138
and 198-211). -/
def initial_state (c : Config) (rand : Nat → Nat) : Option State := do
  let dims ← grid_dims c
  some { window_width := c.window_width, window_height := c.window_height,
         entity_size := c.entity_size, entities := build_grid dims.2 dims.1 rand,
         columns := dims.1, rows := dims.2 }

/-- The first `k` iterations of the frame loop with random revive off, seen on the grid. -/
def run_frames : Nat → State → Option State
  | 0, s => some s
  | k + 1, s => (frame s false 0 0).bind fun p => run_frames k p.1

/-- The index pair `(y, x)` with which `is_alive(x, y)` reaches `entities[y][x]` (line 29),
`none` when it returns before. -/
def is_alive_access (s : State) (x y : Int) : Option (Int × Int) :=
  if x < 0 then none
  else if y < 0 then none
  else do
    let c ← c_div s.window_width s.entity_size
    if x > c - 1 then none
    else do
      let r ← c_div s.window_height s.entity_size
      if y > r - 1 then none
      else some (y, x)

/-! ## The end of an iteration: FPS report and pacing (lines 215-218 and 292-305) -/

/-- Subtraction of `unsigned int` values, for operands below `2 ^ 32`: modulo `2 ^ 32`. -/
def u32_sub (a b : Nat) : Nat := (a + 2 ^ 32 - b) % 2 ^ 32

/-- The frame budget `default_delay` in milliseconds (lines 215-218). -/
def default_delay (fps_cap : Nat) : Nat :=
  if fps_cap > 0 then 1000 / fps_cap else 0

/-- The locals the FPS report carries from one iteration to the next: the frame counter `fps`
and the time `t1` of its last reset. -/
structure Pace where
  fps : Nat
  t1 : Nat
  deriving DecidableEq, Repr

/-- The calls an iteration makes after presenting the frame. -/
inductive Action where
  | SDL_SetWindowTitle (title : String)
  | SDL_Delay (ms : Nat)
  deriving DecidableEq, Repr

/-- Lines 292-305. `t2_1`, `t2_2` and `t3` are the values `SDL_GetTicks()` returns at line
225, at line 294 and, when the report is made, at line 302. -/
def end_of_iteration (delay : Nat) (p : Pace) (t2_1 t2_2 t3 : Nat) : Pace × List Action :=
  let fps := (p.fps + 1) % 2 ^ 32
  if u32_sub t2_2 p.t1 > 1000 then
    ({ fps := 0, t1 := t3 }, [Action.SDL_SetWindowTitle ("GOL - " ++ toString fps ++ " FPS")])
  else if u32_sub t2_2 t2_1 < delay then
    ({ fps := fps, t1 := p.t1 }, [Action.SDL_Delay (u32_sub delay (u32_sub t2_2 t2_1))])
  else
    ({ fps := fps, t1 := p.t1 }, [])

/-! ## Example inputs -/

/-- A row of cells from their alive flags (`1` alive), the stored counts being `stale`. -/
def row_of (stale : Int) (flags : List Nat) : List Entity :=
  flags.map fun b => { alive := b == 1, neighbors := stale }

/-- A 5 x 5 grid holding a horizontal blinker, with stale counts. -/
def blinker_state : State :=
  { window_width := 25, window_height := 25, entity_size := 5,
    entities := [row_of 7 [0, 0, 0, 0, 0], row_of 7 [0, 0, 0, 0, 0], row_of 7 [0, 1, 1, 1, 0],
                 row_of 7 [0, 0, 0, 0, 0], row_of 7 [0, 0, 0, 0, 0]],
    columns := 5, rows := 5 }

/-- A single row `alive, dead, alive`: the middle cell is dead with two live neighbours. -/
def gap_state : State :=
  { window_width := 15, window_height := 5, entity_size := 5,
    entities := [row_of 0 [1, 0, 1]], columns := 3, rows := 1 }

/-- A single dead cell, without any neighbour. -/
def lone_state : State :=
  { window_width := 5, window_height := 5, entity_size := 5,
    entities := [row_of 0 [0]], columns := 1, rows := 1 }

/-- A 7 x 5 grid holding a horizontal blinker centred at `(3, 2)`, with two dead cells of
border on every side. -/
def bordered_blinker_state : State :=
  { window_width := 35, window_height := 25, entity_size := 5,
    entities := [row_of 0 [0, 0, 0, 0, 0, 0, 0], row_of 0 [0, 0, 0, 0, 0, 0, 0],
                 row_of 0 [0, 0, 1, 1, 1, 0, 0], row_of 0 [0, 0, 0, 0, 0, 0, 0],
                 row_of 0 [0, 0, 0, 0, 0, 0, 0]],
    columns := 7, rows := 5 }

/-- The state `main` builds for entity size 10 in a 5 x 5 window: no rows, no columns. -/
def empty_state : State :=
  { window_width := 5, window_height := 5, entity_size := 10,
    entities := [], columns := 0, rows := 0 }

/-- A 4 x 4 grid holding a 2 x 2 block in its middle, one dead cell of border on every side. -/
def block_state : State :=
  { window_width := 20, window_height := 20, entity_size := 5,
    entities := [row_of 0 [0, 0, 0, 0], row_of 0 [0, 1, 1, 0], row_of 0 [0, 1, 1, 0],
                 row_of 0 [0, 0, 0, 0]],
    columns := 4, rows := 4 }

/-! ## Lemmas: vectors and loops -/

theorem vec_at_natCast {α : Type} (v : List α) (n : Nat) : vec_at v (n : Int) = v[n]? := by
  simp [vec_at]

theorem entity_at_natCast (g : Grid) (y x : Nat) :
    entity_at g (y : Int) (x : Int) = (g[y]?).bind (fun row => row[x]?) := by
  simp [entity_at, vec_at_natCast, Option.bind_eq_bind, bind]

/-- Invariant rule for `for_loop`: when the invariant holds at the start and every iteration
returns and re-establishes it, the loop returns in a state satisfying it. -/
theorem for_loop_inv {σ : Type} (n : Int) (m : Nat) (hn : n = (m : Int))
    (body : Int → σ → Option σ) (I : Nat → σ → Prop)
    (s0 : σ) (h0 : I 0 s0)
    (hstep : ∀ (i : Nat) (s : σ), i < m → I i s → ∃ s', body (i : Int) s = some s' ∧ I (i + 1) s') :
    ∃ s', for_loop n body s0 = some s' ∧ I m s' := by
  subst hn
  induction m with
  | zero => exact ⟨s0, by simp [for_loop], h0⟩
  | succ k ih =>
    obtain ⟨s1, h1, hI⟩ := ih (fun i s hi => hstep i s (by omega))
    obtain ⟨s2, h2, hI2⟩ := hstep k s1 (by omega) hI
    refine ⟨s2, ?_, hI2⟩
    simp only [for_loop, Int.toNat_ofNat] at h1 ⊢
    have : (((k + 1 : Nat) : Int)).toNat = k + 1 := by omega
    simp [this, List.range_succ, List.foldlM_append, h1, h2]

/-! ## Lemmas: cell-wise transformations and in-place writes -/

theorem gmap_length (F : Nat → Nat → Entity → Entity) (g : Grid) :
    (gmap F g).length = g.length := by
  simp [gmap]

theorem gmap_getElem? (F : Nat → Nat → Entity → Entity) (g : Grid) (y : Nat) :
    (gmap F g)[y]? = (g[y]?).map (fun row => row.mapIdx fun x e => F x y e) := by
  simp [gmap, List.getElem?_mapIdx]

theorem gmap_row_length (F : Nat → Nat → Entity → Entity) (g : Grid) (c : Int)
    (h : ∀ row ∈ g, (row.length : Int) = c) : ∀ row ∈ gmap F g, (row.length : Int) = c := by
  intro row hrow
  obtain ⟨n, hn⟩ := List.getElem?_of_mem hrow
  rw [gmap_getElem?] at hn
  cases hg : g[n]? with
  | none => simp [hg] at hn
  | some row0 =>
    simp only [hg, Option.map_some', Option.some.injEq] at hn
    rw [← hn]
    simpa using h row0 (List.getElem?_mem hg)

theorem entity_at_gmap (F : Nat → Nat → Entity → Entity) (g : Grid) (y x : Int) :
    entity_at (gmap F g) y x = (entity_at g y x).map (F x.toNat y.toNat) := by
  unfold entity_at vec_at
  by_cases hy : y < 0
  · simp [hy]
  · by_cases hx : x < 0
    · simp [hy, hx]
    · simp only [hy, hx, if_false, gmap_getElem?]
      cases g[y.toNat]? with
      | none => rfl
      | some row => simp [List.getElem?_mapIdx]

theorem gmap_congr (F G : Nat → Nat → Entity → Entity) (g : Grid)
    (h : ∀ (x y : Nat) (e : Entity), entity_at g (y : Int) (x : Int) = some e → F x y e = G x y e) :
    gmap F g = gmap G g := by
  apply List.ext_getElem?
  intro y
  rw [gmap_getElem?, gmap_getElem?]
  cases hrow : g[y]? with
  | none => rfl
  | some row =>
    simp only [Option.map_some', Option.some.injEq]
    apply List.ext_getElem?
    intro x
    simp only [List.getElem?_mapIdx]
    cases hx : row[x]? with
    | none => rfl
    | some e =>
      simp only [Option.map_some', Option.some.injEq]
      apply h
      simp [entity_at_natCast, hrow, hx]

theorem gmap_gmap (F G : Nat → Nat → Entity → Entity) (g : Grid) :
    gmap F (gmap G g) = gmap (fun x y e => F x y (G x y e)) g := by
  apply List.ext_getElem?
  intro y
  simp only [gmap_getElem?]
  cases g[y]? with
  | none => rfl
  | some row =>
    simp only [Option.map_some', Option.some.injEq]
    apply List.ext_getElem?
    intro x
    simp only [List.getElem?_mapIdx]
    cases row[x]? <;> rfl

theorem gmap_id (g : Grid) : gmap (fun _ _ e => e) g = g := by
  apply List.ext_getElem?
  intro y
  rw [gmap_getElem?]
  cases g[y]? with
  | none => rfl
  | some row =>
    simp only [Option.map_some', Option.some.injEq]
    apply List.ext_getElem?
    intro x
    simp [List.getElem?_mapIdx]

/-- A write to an existing cell is the cell-wise transformation that changes this cell only. -/
theorem entity_update_eq_gmap (g : Grid) (y x : Nat) (f : Entity → Entity) (e : Entity)
    (he : entity_at g (y : Int) (x : Int) = some e) :
    entity_update g (y : Int) (x : Int) f =
      some (gmap (fun i j c => if j = y ∧ i = x then f c else c) g) := by
  rw [entity_at_natCast] at he
  cases hrow : g[y]? with
  | none => simp [hrow] at he
  | some row =>
    simp only [hrow, Option.some_bind] at he
    unfold entity_update
    simp only [vec_at_natCast, hrow, Option.bind_eq_bind, Option.some_bind, he, Int.toNat_ofNat,
      Option.some.injEq]
    have hyl : y < g.length := (List.getElem?_eq_some.mp hrow).1
    have hxl : x < row.length := (List.getElem?_eq_some.mp he).1
    apply List.ext_getElem?
    intro j
    rw [List.getElem?_set, gmap_getElem?]
    by_cases hj : y = j
    · subst hj
      simp only [if_true, hyl, hrow, Option.map_some', Option.some.injEq]
      apply List.ext_getElem?
      intro i
      rw [List.getElem?_set]
      by_cases hi : x = i
      · subst hi
        have hrx : row[x] = e := (List.getElem?_eq_some.mp he).2
        simp [List.getElem?_mapIdx, hxl, he, hrx]
      · have hi2 : ¬ i = x := fun h => hi h.symm
        simp only [hi, if_false, List.getElem?_mapIdx, hi2, and_false]
        cases row[i]? <;> rfl
    · have hj2 : ¬ j = y := fun h => hj h.symm
      simp only [hj, if_false, hj2, false_and]
      cases g[j]? with
      | none => rfl
      | some row1 =>
        simp only [Option.map_some', Option.some.injEq]
        apply List.ext_getElem?
        intro i
        simp only [List.getElem?_mapIdx]
        cases row1[i]? <;> rfl

theorem stage_zero (F : Nat → Nat → Entity → Entity) (g : Grid) : stage F g 0 0 = g := by
  unfold stage
  have : gmap (fun x y e => if y < 0 ∨ (y = 0 ∧ x < 0) then F x y e else e) g
      = gmap (fun _ _ e => e) g := by
    apply gmap_congr
    intro x y e _
    simp
  rw [this, gmap_id]

theorem stage_row_end (F : Nat → Nat → Entity → Entity) (g : Grid) (ky cols : Nat)
    (hc : ∀ (x y : Nat) (e : Entity), entity_at g (y : Int) (x : Int) = some e → x < cols) :
    stage F g ky cols = stage F g (ky + 1) 0 := by
  unfold stage
  apply gmap_congr
  intro x y e he
  have hx := hc x y e he
  have : (y < ky ∨ y = ky ∧ x < cols) ↔ (y < ky + 1 ∨ y = ky + 1 ∧ x < 0) := by omega
  simp only [this]

theorem stage_full (F : Nat → Nat → Entity → Entity) (g : Grid) (n : Nat)
    (hr : ∀ (x y : Nat) (e : Entity), entity_at g (y : Int) (x : Int) = some e → y < n) :
    stage F g n 0 = gmap F g := by
  unfold stage
  apply gmap_congr
  intro x y e he
  have hy := hr x y e he
  simp [hy]

theorem entity_update_stage (F : Nat → Nat → Entity → Entity) (g : Grid) (y x : Nat)
    (f : Entity → Entity) (e : Entity) (he : entity_at g (y : Int) (x : Int) = some e)
    (hf : f e = F x y e) :
    entity_update (stage F g y x) (y : Int) (x : Int) f = some (stage F g y (x + 1)) := by
  have he2 : entity_at (stage F g y x) (y : Int) (x : Int) = some e := by
    unfold stage
    rw [entity_at_gmap, he]
    simp
  rw [entity_update_eq_gmap _ _ _ _ e he2]
  unfold stage
  rw [gmap_gmap]
  congr 1
  apply gmap_congr
  intro i j c hc
  by_cases hji : j = y ∧ i = x
  · obtain ⟨hj, hi⟩ := hji
    subst hj; subst hi
    have : c = e := by rw [he] at hc; exact (Option.some.inj hc).symm
    subst this
    simp [hf]
  · have : (j < y ∨ j = y ∧ i < x + 1) ↔ (j < y ∨ j = y ∧ i < x) := by omega
    simp only [hji, if_false, this]

/-! ## Lemmas: `is_alive` and the two passes on a grid of the configured shape -/

theorem entity_at_some_of_inRange (s : State) (h : Shaped s) (x y : Int)
    (hx0 : 0 ≤ x) (hx1 : x < s.columns) (hy0 : 0 ≤ y) (hy1 : y < s.rows) :
    ∃ e, entity_at s.entities y x = some e := by
  obtain ⟨_, _, _, hlen, hrows⟩ := h
  have hyl : y.toNat < s.entities.length := by omega
  have hrow : s.entities[y.toNat]? = some (s.entities[y.toNat]) := List.getElem?_eq_getElem hyl
  have hmem : s.entities[y.toNat] ∈ s.entities := List.getElem_mem hyl
  have hcl := hrows _ hmem
  have hxl : x.toNat < (s.entities[y.toNat]).length := by omega
  refine ⟨(s.entities[y.toNat])[x.toNat], ?_⟩
  unfold entity_at vec_at
  simp only [not_lt.mpr hy0, not_lt.mpr hx0, if_false, hrow, Option.bind_eq_bind,
    Option.some_bind]
  exact List.getElem?_eq_getElem hxl

theorem entity_at_none_of_outRange (s : State) (h : Shaped s) (x y : Int)
    (hout : x < 0 ∨ y < 0 ∨ s.columns ≤ x ∨ s.rows ≤ y) :
    entity_at s.entities y x = none := by
  obtain ⟨_, _, _, hlen, hrows⟩ := h
  unfold entity_at vec_at
  by_cases hy : y < 0
  · simp [hy]
  · simp only [hy, if_false, Option.bind_eq_bind]
    cases hrow : s.entities[y.toNat]? with
    | none => rfl
    | some row =>
      have hyl : y.toNat < s.entities.length := (List.getElem?_eq_some.mp hrow).1
      have hcl := hrows row (List.getElem?_mem hrow)
      simp only [Option.some_bind]
      by_cases hx : x < 0
      · simp [hx]
      · simp only [hx, if_false]
        apply List.getElem?_eq_none
        omega

/-- On a grid of the configured shape `is_alive` always returns, with the alive flag read
with a dead border. -/
theorem is_alive_eq (s : State) (h : Shaped s) (x y : Int) :
    is_alive s x y = some (alive_at s.entities x y) := by
  have hes : s.entity_size ≠ 0 := by have := h.1; omega
  have hc := h.2.1
  have hr := h.2.2.1
  unfold is_alive alive_at
  by_cases hx : x < 0
  · simp [hx, entity_at_none_of_outRange s h x y (Or.inl hx)]
  · by_cases hy : y < 0
    · simp [hx, hy, entity_at_none_of_outRange s h x y (Or.inr (Or.inl hy))]
    · simp only [hx, hy, if_false, c_div, hes, Option.bind_eq_bind, Option.some_bind, ← hc, ← hr]
      by_cases hxc : x > s.columns - 1
      · simp [hxc, entity_at_none_of_outRange s h x y (Or.inr (Or.inr (Or.inl (by omega))))]
      · by_cases hyr : y > s.rows - 1
        · simp [hxc, hyr, entity_at_none_of_outRange s h x y (Or.inr (Or.inr (Or.inr (by omega))))]
        · obtain ⟨e, he⟩ := entity_at_some_of_inRange s h x y (by omega) (by omega) (by omega) (by omega)
          simp [hxc, hyr, he]

theorem shaped_gmap (s : State) (h : Shaped s) (F : Nat → Nat → Entity → Entity) :
    Shaped { s with entities := gmap F s.entities } := by
  obtain ⟨h1, h2, h3, hlen, hrows⟩ := h
  refine ⟨h1, h2, h3, ?_, gmap_row_length F _ _ hrows⟩
  simpa [gmap_length] using hlen

theorem shaped_stage (s : State) (h : Shaped s) (F : Nat → Nat → Entity → Entity) (ky kx : Nat) :
    Shaped { s with entities := stage F s.entities ky kx } :=
  shaped_gmap s h _

theorem alive_at_stage (F : Nat → Nat → Entity → Entity) (hF : ∀ x y e, (F x y e).alive = e.alive)
    (g : Grid) (ky kx : Nat) (x y : Int) :
    alive_at (stage F g ky kx) x y = alive_at g x y := by
  unfold alive_at stage
  rw [entity_at_gmap]
  cases entity_at g y x with
  | none => rfl
  | some e =>
    simp only [Option.map_some']
    split <;> simp [hF]

theorem count_cell_stage (s : State) (h : Shaped s) (y x : Nat)
    (hx : (x : Int) < s.columns) (hy : (y : Int) < s.rows) :
    count_cell { s with entities := stage (count_fn s.entities) s.entities y x } (x : Int) (y : Int)
      = some { s with entities := stage (count_fn s.entities) s.entities y (x + 1) } := by
  have hsh := shaped_stage s h (count_fn s.entities) y x
  obtain ⟨e, he⟩ := entity_at_some_of_inRange s h x y (by omega) hx (by omega) hy
  unfold count_cell
  simp only [is_alive_eq _ hsh, Option.bind_eq_bind, Option.some_bind]
  simp only [alive_at_stage (count_fn s.entities) (fun _ _ _ => rfl)]
  rw [entity_update_stage _ _ _ _ _ e he]
  · rfl
  · rfl

theorem entity_at_bounds (s : State) (h : Shaped s) (x y : Nat) (e : Entity)
    (he : entity_at s.entities (y : Int) (x : Int) = some e) :
    (x : Int) < s.columns ∧ (y : Int) < s.rows := by
  by_contra hcon
  have := entity_at_none_of_outRange s h x y (by omega)
  rw [this] at he
  cases he

/-- The counting pass returns, and its in-place writes amount to the cell-wise
transformation that stores in each cell the sum taken over the original alive flags. -/
theorem count_pass_eq (s : State) (h : Shaped s) :
    count_pass s = some { s with entities := gmap (count_fn s.entities) s.entities } := by
  have hlen := h.2.2.2.1
  have hrows := h.2.2.2.2
  unfold count_pass
  obtain ⟨s1, hs1, hI⟩ := for_loop_inv s.rows s.entities.length hlen.symm
    (fun y st => for_loop s.columns (fun x st1 => count_cell st1 x y) st)
    (fun k st => st = { s with entities := stage (count_fn s.entities) s.entities k 0 })
    s (by simp [stage_zero])
    (by
      intro y st hy hst
      have hmem : s.entities[y] ∈ s.entities := List.getElem_mem hy
      have hcols := hrows _ hmem
      obtain ⟨s2, hs2, hI2⟩ := for_loop_inv s.columns (s.entities[y]).length hcols.symm
        (fun x st1 => count_cell st1 x y)
        (fun k st1 => st1 = { s with entities := stage (count_fn s.entities) s.entities y k })
        st hst
        (by
          intro x st1 hx hst1
          refine ⟨_, ?_, rfl⟩
          rw [hst1]
          exact count_cell_stage s h y x (by omega) (by omega))
      refine ⟨s2, hs2, ?_⟩
      beta_reduce at hI2 ⊢
      rw [hI2, stage_row_end]
      intro i j c hc
      have := (entity_at_bounds s h i j c hc).1
      omega)
  rw [hs1, hI, stage_full]
  intro i j c hc
  have := (entity_at_bounds s h i j c hc).2
  omega

theorem rule_cell_stage (s : State) (h : Shaped s) (y x : Nat) (drawn : List Rect)
    (hx : (x : Int) < s.columns) (hy : (y : Int) < s.rows) :
    ∃ drawn1, rule_cell (x : Int) (y : Int)
        ({ s with entities := stage (fun _ _ => rule_fn) s.entities y x }, drawn)
      = some ({ s with entities := stage (fun _ _ => rule_fn) s.entities y (x + 1) }, drawn1) := by
  obtain ⟨e, he⟩ := entity_at_some_of_inRange s h x y (by omega) hx (by omega) hy
  have he2 : entity_at (stage (fun _ _ => rule_fn) s.entities y x) (y : Int) (x : Int) = some e := by
    unfold stage
    rw [entity_at_gmap, he]
    simp
  unfold rule_cell
  simp only [he2, Option.bind_eq_bind, Option.some_bind]
  by_cases h3 : e.neighbors = 3
  · simp only [h3, if_true]
    rw [entity_update_stage (fun _ _ => rule_fn) _ _ _ _ e he (by simp [rule_fn, h3])]
    exact ⟨_, rfl⟩
  · by_cases h2 : e.neighbors < 2 ∨ e.neighbors > 3
    · simp only [h3, h2, if_true, if_false]
      rw [entity_update_stage (fun _ _ => rule_fn) _ _ _ _ e he (by simp [rule_fn, h3, h2])]
      exact ⟨_, rfl⟩
    · simp only [h3, h2, if_false]
      have hupd := entity_update_stage (fun _ _ => rule_fn) s.entities y x id e he
        (by simp [rule_fn, h3, h2])
      rw [entity_update_eq_gmap _ _ _ _ e he2] at hupd
      have hid : gmap (fun i j c => if j = y ∧ i = x then id c else c)
          (stage (fun _ _ => rule_fn) s.entities y x)
          = stage (fun _ _ => rule_fn) s.entities y x := by
        have : (fun (i j : Nat) (c : Entity) => if j = y ∧ i = x then id c else c)
            = (fun _ _ c => c) := by
          funext i j c
          simp
        rw [this, gmap_id]
      rw [hid] at hupd
      rw [← Option.some.inj hupd]
      exact ⟨_, rfl⟩

/-- The rule pass returns, and its in-place writes amount to `rule_fn` on every cell. -/
theorem rule_pass_eq (s : State) (h : Shaped s) :
    ∃ drawn, rule_pass s
      = some ({ s with entities := gmap (fun _ _ => rule_fn) s.entities }, drawn) := by
  have hlen := h.2.2.2.1
  have hrows := h.2.2.2.2
  unfold rule_pass
  obtain ⟨s1, hs1, hI⟩ := for_loop_inv s.rows s.entities.length hlen.symm
    (fun y st => for_loop s.columns (fun x st1 => rule_cell x y st1) st)
    (fun k st => st.1 = { s with entities := stage (fun _ _ => rule_fn) s.entities k 0 })
    (s, []) (by simp [stage_zero])
    (by
      intro y st hy hst
      have hmem : s.entities[y] ∈ s.entities := List.getElem_mem hy
      have hcols := hrows _ hmem
      obtain ⟨s2, hs2, hI2⟩ := for_loop_inv s.columns (s.entities[y]).length hcols.symm
        (fun x st1 => rule_cell x y st1)
        (fun k st1 => st1.1 = { s with entities := stage (fun _ _ => rule_fn) s.entities y k })
        st hst
        (by
          intro x st1 hx hst1
          obtain ⟨d1, hd1⟩ := rule_cell_stage s h y x st1.2 (by omega) (by omega)
          rw [← hst1] at hd1
          exact ⟨_, hd1, rfl⟩)
      refine ⟨s2, hs2, ?_⟩
      beta_reduce at hI2 ⊢
      rw [hI2, stage_row_end]
      intro i j c hc
      have := (entity_at_bounds s h i j c hc).1
      omega)
  refine ⟨s1.2, ?_⟩
  rw [hs1]
  have : stage (fun _ _ => rule_fn) s.entities s.entities.length 0
      = gmap (fun _ _ => rule_fn) s.entities := by
    apply stage_full
    intro i j c hc
    have := (entity_at_bounds s h i j c hc).2
    omega
  rw [this] at hI
  rw [← hI]

/-! ## Lemmas: one frame, and the reference step -/

/-- The sum formed by `count_cell` is the number of live surrounding cells. -/
theorem neighbor_sum_eq (g : Grid) (x y : Int) :
    neighbor_sum g x y = (live_neighbours g x y : Int) := by
  unfold neighbor_sum live_neighbours surrounding
  simp only [List.countP_cons, List.countP_nil]
  generalize alive_at g (x - 1) (y - 1) = a1
  generalize alive_at g x (y - 1) = a2
  generalize alive_at g (x + 1) (y - 1) = a3
  generalize alive_at g (x - 1) y = a4
  generalize alive_at g (x + 1) y = a5
  generalize alive_at g (x - 1) (y + 1) = a6
  generalize alive_at g x (y + 1) = a7
  generalize alive_at g (x + 1) (y + 1) = a8
  cases a1 <;> cases a2 <;> cases a3 <;> cases a4 <;> cases a5 <;> cases a6 <;> cases a7 <;>
    cases a8 <;> rfl

theorem live_neighbours_le (g : Grid) (x y : Int) : live_neighbours g x y ≤ 8 := by
  unfold live_neighbours
  have := List.countP_le_length (fun p : Int × Int => alive_at g p.1 p.2) (l := surrounding x y)
  simpa [surrounding] using this

theorem frame_no_revive_eq (s : State) (h : Shaped s) (r1 r2 : Nat) :
    ∃ drawn, frame s false r1 r2 = some
      ({ s with entities := gmap (fun x y e => rule_fn (count_fn s.entities x y e)) s.entities },
        drawn) := by
  have hsh := shaped_gmap s h (count_fn s.entities)
  obtain ⟨drawn, hd⟩ := rule_pass_eq _ hsh
  refine ⟨drawn, ?_⟩
  unfold frame
  simp only [count_pass_eq s h, Option.bind_eq_bind, Option.some_bind, Bool.false_eq_true, if_false,
    hd]
  rw [gmap_gmap]

theorem rule_count_eq_reference (g : Grid) :
    gmap (fun x y e => rule_fn (count_fn g x y e)) g = reference_step g := by
  unfold reference_step
  apply gmap_congr
  intro x y e _
  have hn := neighbor_sum_eq g x y
  have hle := live_neighbours_le g x y
  unfold rule_fn count_fn
  simp only [hn]
  by_cases h3 : live_neighbours g x y = 3
  · simp [h3]
  · by_cases h2 : live_neighbours g x y = 2
    · simp [h2]
    · have h3i : ¬ ((live_neighbours g x y : Int) = 3) := by omega
      have hout : (live_neighbours g x y : Int) < 2 ∨ (live_neighbours g x y : Int) > 3 := by omega
      simp only [h3, h2, h3i, hout, if_true, if_false, false_and, or_false, decide_False]
      try rfl

theorem alive_at_gmap (F : Nat → Nat → Entity → Entity) (g : Grid) (x y : Int) (e : Entity)
    (he : entity_at g y x = some e) :
    alive_at (gmap F g) x y = (F x.toNat y.toNat e).alive := by
  unfold alive_at
  rw [entity_at_gmap, he]
  rfl

theorem alive_at_of_entity (g : Grid) (x y : Int) (e : Entity) (he : entity_at g y x = some e) :
    alive_at g x y = e.alive := by
  unfold alive_at
  rw [he]

theorem alive_at_gmap_of_preserved (F : Nat → Nat → Entity → Entity)
    (hF : ∀ x y e, (F x y e).alive = e.alive) (g : Grid) (x y : Int) :
    alive_at (gmap F g) x y = alive_at g x y := by
  unfold alive_at
  rw [entity_at_gmap]
  cases entity_at g y x with
  | none => rfl
  | some e => simp [hF]

theorem live_neighbours_congr (g1 g2 : Grid) (h : ∀ x y : Int, alive_at g1 x y = alive_at g2 x y)
    (x y : Int) : live_neighbours g1 x y = live_neighbours g2 x y := by
  unfold live_neighbours
  have hfun : (fun p : Int × Int => alive_at g1 p.1 p.2) = (fun p => alive_at g2 p.1 p.2) := by
    funext p
    exact h p.1 p.2
  rw [hfun]

theorem rule_fn_alive_iff (e : Entity) (n : Nat) (hn : e.neighbors = (n : Int)) :
    (rule_fn e).alive = true ↔ (n = 3 ∨ (n = 2 ∧ e.alive = true)) := by
  unfold rule_fn
  by_cases h3 : n = 3
  · simp [hn, h3]
  · by_cases h2 : n = 2
    · simp [hn, h2]
    · have h3i : ¬ ((n : Int) = 3) := by omega
      have hout : (n : Int) < 2 ∨ (n : Int) > 3 := by omega
      simp only [hn, h3, h2, h3i, hout, if_true, if_false, false_and, or_false]
      simp

/-- One frame without revive, read through the alive flags: the frame returns, keeps the
shape, and a coordinate is alive afterwards iff it is in range and the rule holds for the
counts taken before the frame. -/
theorem frame_step_alive (s : State) (h : Shaped s) (r1 r2 : Nat) :
    ∃ s1 drawn, frame s false r1 r2 = some (s1, drawn) ∧ Shaped s1 ∧
      s1.columns = s.columns ∧ s1.rows = s.rows ∧
      ∀ x y : Int, (alive_at s1.entities x y = true ↔
        (0 ≤ x ∧ x < s.columns ∧ 0 ≤ y ∧ y < s.rows ∧
          (neighbor_sum s.entities x y = 3 ∨
            (neighbor_sum s.entities x y = 2 ∧ alive_at s.entities x y = true)))) := by
  obtain ⟨drawn, hd⟩ := frame_no_revive_eq s h r1 r2
  refine ⟨_, drawn, hd, shaped_gmap s h _, rfl, rfl, ?_⟩
  intro x y
  by_cases hin : 0 ≤ x ∧ x < s.columns ∧ 0 ≤ y ∧ y < s.rows
  · obtain ⟨hx0, hx1, hy0, hy1⟩ := hin
    obtain ⟨e, he⟩ := entity_at_some_of_inRange s h x y hx0 hx1 hy0 hy1
    have hxc : ((x.toNat : Nat) : Int) = x := Int.toNat_of_nonneg hx0
    have hyc : ((y.toNat : Nat) : Int) = y := Int.toNat_of_nonneg hy0
    rw [alive_at_gmap _ _ _ _ e he, alive_at_of_entity _ _ _ e he]
    rw [rule_fn_alive_iff _ (live_neighbours s.entities x y)
      (by simp [count_fn, hxc, hyc, neighbor_sum_eq])]
    have e3 : ((live_neighbours s.entities x y : Int) = 3) ↔ live_neighbours s.entities x y = 3 := by
      omega
    have e2 : ((live_neighbours s.entities x y : Int) = 2) ↔ live_neighbours s.entities x y = 2 := by
      omega
    simp only [count_fn, neighbor_sum_eq, hx0, hx1, hy0, hy1, true_and, e3, e2, and_self]
  · have hnone : entity_at s.entities y x = none :=
      entity_at_none_of_outRange s h x y (by omega)
    have hdead : alive_at (gmap (fun x y e => rule_fn (count_fn s.entities x y e)) s.entities) x y
        = false := by
      unfold alive_at
      rw [entity_at_gmap, hnone]
      rfl
    rw [hdead]
    constructor
    · intro hf
      cases hf
    · rintro ⟨a, b, c, d, _⟩
      exact absurd ⟨a, b, c, d⟩ hin

/-! ## Lemmas: the revive -/

/-- With at least one row and one column the revive returns and sets the alive flag of the
cell `(rand % columns, rand % rows)`. -/
theorem revive_eq (s : State) (h : Shaped s) (hr : 0 < s.rows) (hc : 0 < s.columns)
    (r1 r2 xr yr : Nat) (hxr : xr = (Int.tmod r2 s.columns).toNat)
    (hyr : yr = (Int.tmod r1 s.rows).toNat) :
    revive s r1 r2 = some { s with entities := gmap (revive_fn xr yr) s.entities } := by
  have hy0 : 0 ≤ Int.tmod r1 s.rows := Int.tmod_nonneg _ (Int.ofNat_nonneg _)
  have hy1 : Int.tmod r1 s.rows < s.rows := Int.tmod_lt_of_pos _ hr
  have hx0 : 0 ≤ Int.tmod r2 s.columns := Int.tmod_nonneg _ (Int.ofNat_nonneg _)
  have hx1 : Int.tmod r2 s.columns < s.columns := Int.tmod_lt_of_pos _ hc
  obtain ⟨e, he⟩ := entity_at_some_of_inRange s h _ _ hx0 hx1 hy0 hy1
  have hxc : (xr : Int) = Int.tmod r2 s.columns := by
    rw [hxr]; exact Int.toNat_of_nonneg hx0
  have hyc : (yr : Int) = Int.tmod r1 s.rows := by
    rw [hyr]; exact Int.toNat_of_nonneg hy0
  have hupd := entity_update_eq_gmap s.entities yr xr (fun c => { c with alive := true }) e
    (by rw [hxc, hyc]; exact he)
  rw [hxc, hyc] at hupd
  unfold revive c_mod
  have hr0 : s.rows ≠ 0 := by omega
  have hc0 : s.columns ≠ 0 := by omega
  simp only [hr0, hc0, if_false, Option.bind_eq_bind, Option.some_bind, hupd]
  rfl

theorem frame_revive_eq (s : State) (h : Shaped s) (hr : 0 < s.rows) (hc : 0 < s.columns)
    (r1 r2 xr yr : Nat) (hxr : xr = (Int.tmod r2 s.columns).toNat)
    (hyr : yr = (Int.tmod r1 s.rows).toNat) (F : Nat → Nat → Entity → Entity)
    (hF : F = fun x y e => rule_fn (revive_fn xr yr x y (count_fn s.entities x y e))) :
    ∃ drawn, frame s true r1 r2 = some ({ s with entities := gmap F s.entities }, drawn) := by
  have hsh := shaped_gmap s h (count_fn s.entities)
  have hrev := revive_eq _ hsh hr hc r1 r2 xr yr hxr hyr
  have hsh2 := shaped_gmap _ hsh (revive_fn xr yr)
  obtain ⟨drawn, hd⟩ := rule_pass_eq _ hsh2
  refine ⟨drawn, ?_⟩
  unfold frame
  simp only [count_pass_eq s h, Option.bind_eq_bind, Option.some_bind, if_true, hrev, hd]
  simp only [gmap_gmap]
  rw [hF]

/-! ## Lemmas: the option blocks of `main` -/

/-- The fps-cap block never returns early: its comparison is on an unsigned value. -/
theorem parse_fps_cap_never_exits (argv : List String) (c : Config) :
    ∃ c1, parse_fps_cap argv c = .ok c1 := by
  unfold parse_fps_cap
  split
  · split
    · rename_i v _
      refine ⟨{ c with fps_cap := (v % 2 ^ 32).toNat }, ?_⟩
      simp
    · exact ⟨_, rfl⟩
  · exact ⟨_, rfl⟩

theorem parse_entity_size_ok (argv : List String) (c c1 : Config)
    (h : parse_entity_size argv c = .ok c1) :
    (0 < c.entity_size → 0 < c1.entity_size) ∧ c1.window_width = c.window_width ∧
    c1.window_height = c.window_height ∧
    ∀ v, 1 < argv.length → stoi (arg argv 1) = some v → 0 < v := by
  unfold parse_entity_size at h
  split at h
  · split at h
    · rename_i v hv
      split at h
      · cases h
      · cases h
        refine ⟨fun _ => by simpa using (by omega : 0 < v), rfl, rfl, ?_⟩
        intro w _ hw
        rw [hv] at hw
        cases hw
        omega
    · rename_i hv
      cases h
      refine ⟨fun _ => by simp, rfl, rfl, ?_⟩
      intro w _ hw
      rw [hv] at hw
      cases hw
  · cases h
    exact ⟨id, rfl, rfl, fun v hlt => by omega⟩

theorem parse_window_width_ok (argv : List String) (c c1 : Config)
    (h : parse_window_width argv c = .ok c1) :
    (0 < c.window_width → 0 < c1.window_width) ∧ c1.entity_size = c.entity_size ∧
    c1.window_height = c.window_height ∧
    ∀ v, 2 < argv.length → stoi (arg argv 2) = some v → 0 < v := by
  unfold parse_window_width at h
  split at h
  · split at h
    · rename_i v hv
      split at h
      · cases h
      · cases h
        refine ⟨fun _ => by simpa using (by omega : 0 < v), rfl, rfl, ?_⟩
        intro w _ hw
        rw [hv] at hw
        cases hw
        omega
    · rename_i hv
      cases h
      refine ⟨fun _ => by simp, rfl, rfl, ?_⟩
      intro w _ hw
      rw [hv] at hw
      cases hw
  · cases h
    exact ⟨id, rfl, rfl, fun v hlt => by omega⟩

theorem parse_window_height_ok (argv : List String) (c c1 : Config)
    (h : parse_window_height argv c = .ok c1) :
    (0 < c.window_height → 0 < c1.window_height) ∧ c1.entity_size = c.entity_size ∧
    c1.window_width = c.window_width ∧
    ∀ v, 3 < argv.length → stoi (arg argv 3) = some v → 0 < v := by
  unfold parse_window_height at h
  split at h
  · split at h
    · rename_i v hv
      split at h
      · cases h
      · cases h
        refine ⟨fun _ => by simpa using (by omega : 0 < v), rfl, rfl, ?_⟩
        intro w _ hw
        rw [hv] at hw
        cases hw
        omega
    · rename_i hv
      cases h
      refine ⟨fun _ => by simp, rfl, rfl, ?_⟩
      intro w _ hw
      rw [hv] at hw
      cases hw
  · cases h
    exact ⟨id, rfl, rfl, fun v hlt => by omega⟩

theorem parse_fps_cap_ok (argv : List String) (c c1 : Config)
    (h : parse_fps_cap argv c = .ok c1) :
    c1.entity_size = c.entity_size ∧ c1.window_width = c.window_width ∧
    c1.window_height = c.window_height := by
  unfold parse_fps_cap at h
  split at h
  · split at h
    · simp at h
      subst h
      exact ⟨rfl, rfl, rfl⟩
    · cases h
      exact ⟨rfl, rfl, rfl⟩
  · cases h
    exact ⟨rfl, rfl, rfl⟩

theorem parse_random_revive_keeps (argv : List String) (c : Config) :
    (parse_random_revive argv c).entity_size = c.entity_size ∧
    (parse_random_revive argv c).window_width = c.window_width ∧
    (parse_random_revive argv c).window_height = c.window_height := by
  unfold parse_random_revive
  split
  · split <;> exact ⟨rfl, rfl, rfl⟩
  · exact ⟨rfl, rfl, rfl⟩

theorem parse_entity_size_error_eq (argv : List String) (c : Config) (e : Exit)
    (h : parse_entity_size argv c = .error e) : e = (ExitStatus.EXIT_SUCCESS, entity_size_error) := by
  unfold parse_entity_size at h
  split at h
  · split at h
    · split at h
      · cases h; rfl
      · cases h
    · cases h
  · cases h

theorem parse_window_width_error_eq (argv : List String) (c : Config) (e : Exit)
    (h : parse_window_width argv c = .error e) :
    e = (ExitStatus.EXIT_SUCCESS, window_width_error) := by
  unfold parse_window_width at h
  split at h
  · split at h
    · split at h
      · cases h; rfl
      · cases h
    · cases h
  · cases h

theorem parse_window_height_error_eq (argv : List String) (c : Config) (e : Exit)
    (h : parse_window_height argv c = .error e) :
    e = (ExitStatus.EXIT_SUCCESS, window_height_error) := by
  unfold parse_window_height at h
  split at h
  · split at h
    · split at h
      · cases h; rfl
      · cases h
    · cases h
  · cases h

/-- The outcome of `parse_args` with at least one argument: an early exit with success status
and one of the three range messages, or a configuration with the facts the option blocks
establish. -/
theorem parse_args_outcome (argv : List String) (hlen : 1 < argv.length) :
    (∃ msg, parse_args argv = .error (ExitStatus.EXIT_SUCCESS, msg) ∧
      (msg = entity_size_error ∨ msg = window_width_error ∨ msg = window_height_error)) ∨
    (∃ c, parse_args argv = .ok c ∧ 0 < c.entity_size ∧ 0 < c.window_width ∧
      0 < c.window_height ∧
      (∀ v, 1 < argv.length → stoi (arg argv 1) = some v → 0 < v) ∧
      (∀ v, 2 < argv.length → stoi (arg argv 2) = some v → 0 < v) ∧
      (∀ v, 3 < argv.length → stoi (arg argv 3) = some v → 0 < v)) := by
  have hnot : ¬ argv.length ≤ 1 := by omega
  unfold parse_args
  simp only [hnot, if_false]
  cases h1 : parse_entity_size argv default_config with
  | error e =>
    left
    have := parse_entity_size_error_eq _ _ _ h1
    subst this
    exact ⟨_, rfl, Or.inl rfl⟩
  | ok c1 =>
    obtain ⟨a1, a2, a3, a4⟩ := parse_entity_size_ok _ _ _ h1
    cases h2 : parse_window_width argv c1 with
    | error e =>
      left
      have := parse_window_width_error_eq _ _ _ h2
      subst this
      exact ⟨_, by simp [bind, Except.bind, h2], Or.inr (Or.inl rfl)⟩
    | ok c2 =>
      obtain ⟨b1, b2, b3, b4⟩ := parse_window_width_ok _ _ _ h2
      cases h3 : parse_window_height argv c2 with
      | error e =>
        left
        have := parse_window_height_error_eq _ _ _ h3
        subst this
        exact ⟨_, by simp [bind, Except.bind, h2, h3], Or.inr (Or.inr rfl)⟩
      | ok c3 =>
        obtain ⟨d1, d2, d3, d4⟩ := parse_window_height_ok _ _ _ h3
        obtain ⟨c4, h4⟩ := parse_fps_cap_never_exits argv c3
        obtain ⟨e1, e2, e3⟩ := parse_fps_cap_ok _ _ _ h4
        obtain ⟨f1, f2, f3⟩ := parse_random_revive_keeps argv c4
        right
        refine ⟨parse_random_revive argv c4, by simp [bind, Except.bind, h2, h3, h4, pure, Except.pure],
          ?_, ?_, ?_, a4, b4, d4⟩
        · rw [f1, e1, d2, b2]; exact a1 (by decide)
        · rw [f2, e2, d3]; exact b1 (by rw [a2]; decide)
        · rw [f3, e3]; exact d1 (by rw [b3, a3]; decide)

/-! ## Lemmas: the blinker -/

theorem b2i_eq_ite (b : Bool) (P : Prop) [Decidable P] (h : b = true ↔ P) :
    b2i b = if P then 1 else 0 := by
  unfold b2i
  by_cases hp : P
  · simp [hp, h.mpr hp]
  · have : b = false := by
      cases b
      · rfl
      · exact absurd (h.mp rfl) hp
    simp [hp, this]

/-- The rule on a horizontal line of three: the cells alive afterwards form the vertical line. -/
theorem blinker_horizontal_rule (g : Grid) (cx cy : Int)
    (hA : ∀ x y : Int, alive_at g x y = true ↔ (y = cy ∧ cx - 1 ≤ x ∧ x ≤ cx + 1)) (x y : Int) :
    (neighbor_sum g x y = 3 ∨ (neighbor_sum g x y = 2 ∧ alive_at g x y = true)) ↔
      (x = cx ∧ cy - 1 ≤ y ∧ y ≤ cy + 1) := by
  have hb : ∀ x y : Int, b2i (alive_at g x y)
      = if (y = cy ∧ cx - 1 ≤ x ∧ x ≤ cx + 1) then 1 else 0 :=
    fun x y => b2i_eq_ite _ _ (hA x y)
  rw [hA x y]
  simp only [neighbor_sum, hb]
  repeat' (split <;> try omega)

/-- The rule on a vertical line of three: the cells alive afterwards form the horizontal line. -/
theorem blinker_vertical_rule (g : Grid) (cx cy : Int)
    (hA : ∀ x y : Int, alive_at g x y = true ↔ (x = cx ∧ cy - 1 ≤ y ∧ y ≤ cy + 1)) (x y : Int) :
    (neighbor_sum g x y = 3 ∨ (neighbor_sum g x y = 2 ∧ alive_at g x y = true)) ↔
      (y = cy ∧ cx - 1 ≤ x ∧ x ≤ cx + 1) := by
  have hb : ∀ x y : Int, b2i (alive_at g x y)
      = if (x = cx ∧ cy - 1 ≤ y ∧ y ≤ cy + 1) then 1 else 0 :=
    fun x y => b2i_eq_ite _ _ (hA x y)
  rw [hA x y]
  simp only [neighbor_sum, hb]
  repeat' (split <;> try omega)

theorem bordered_blinker_line (x y : Int) :
    alive_at bordered_blinker_state.entities x y = true ↔ (y = 2 ∧ 3 - 1 ≤ x ∧ x ≤ 3 + 1) := by
  by_cases hin : 0 ≤ x ∧ x < 7 ∧ 0 ≤ y ∧ y < 5
  · obtain ⟨hx0, hx1, hy0, hy1⟩ := hin
    interval_cases x <;> interval_cases y <;> decide
  · have hnone : entity_at bordered_blinker_state.entities y x = none :=
      entity_at_none_of_outRange bordered_blinker_state (by decide) x y
        (by show x < 0 ∨ y < 0 ∨ (7 : Int) ≤ x ∨ (5 : Int) ≤ y; omega)
    unfold alive_at
    rw [hnone]
    constructor
    · intro hf
      cases hf
    · intro hf
      omega

/-! ## Lemmas: the frame budget and the end of an iteration -/

theorem default_delay_le (fps_cap : Nat) : default_delay fps_cap ≤ 1000 := by
  unfold default_delay
  split
  · exact Nat.div_le_self _ _
  · omega

theorem u32_sub_of_le (a b : Nat) (hb : b ≤ a) (ha : a < 2 ^ 32) : u32_sub a b = a - b := by
  unfold u32_sub
  have h : a + 2 ^ 32 - b = (a - b) + 2 ^ 32 := by omega
  rw [h, Nat.add_mod_right]
  exact Nat.mod_eq_of_lt (by omega)

theorem no_delay_of_zero_budget (p : Pace) (t2_1 t2_2 t3 ms : Nat) :
    Action.SDL_Delay ms ∉ (end_of_iteration 0 p t2_1 t2_2 t3).2 := by
  unfold end_of_iteration
  simp only [Nat.not_lt_zero, if_false]
  split <;> simp

/-! ## Lemmas: the grid built at start-up and the shape of a run -/

/-- Invariant rule for `for_each`. -/
theorem for_each_inv {σ : Type} (n : Int) (m : Nat) (hn : n.toNat = m) (body : Int → σ → σ)
    (I : Nat → σ → Prop) (s0 : σ) (h0 : I 0 s0)
    (hstep : ∀ (i : Nat) (s : σ), i < m → I i s → I (i + 1) (body (i : Int) s)) :
    I m (for_each n body s0) := by
  unfold for_each
  rw [hn]
  clear hn
  induction m with
  | zero => simpa using h0
  | succ k ih =>
    rw [List.range_succ, List.foldl_append]
    simp only [List.foldl_cons, List.foldl_nil]
    exact hstep k _ (by omega) (ih (fun i s hi => hstep i s (by omega)))

theorem build_row_length (columns : Int) (rand : Nat → Nat) (calls : Nat) :
    (build_row columns rand calls).1.length = columns.toNat := by
  unfold build_row
  exact for_each_inv columns columns.toNat rfl _
    (fun (k : Nat) (st : List Entity × Nat) => st.1.length = k) _ rfl
    (by
      intro i s _ hs
      simp [hs])

theorem build_grid_shape (rows columns : Int) (rand : Nat → Nat) :
    (build_grid rows columns rand).length = rows.toNat ∧
    ∀ row ∈ build_grid rows columns rand, row.length = columns.toNat := by
  unfold build_grid
  exact for_each_inv rows rows.toNat rfl _
    (fun (k : Nat) (st : Grid × Nat) =>
      st.1.length = k ∧ ∀ row ∈ st.1, row.length = columns.toNat) _
    ⟨rfl, by simp⟩
    (by
      intro i s _ hs
      refine ⟨by simp [hs.1], ?_⟩
      intro row hrow
      simp only [List.mem_append, List.mem_singleton] at hrow
      rcases hrow with h | h
      · exact hs.2 row h
      · rw [h]
        exact build_row_length columns rand s.2)

/-- The state built for a configuration with positive sizes has the configured shape. -/
theorem initial_state_shaped (c : Config) (rand : Nat → Nat) (hes : 0 < c.entity_size)
    (hw : 0 < c.window_width) (hh : 0 < c.window_height) :
    ∃ s, initial_state c rand = some s ∧ Shaped s ∧
      s.columns = Int.tdiv c.window_width c.entity_size ∧
      s.rows = Int.tdiv c.window_height c.entity_size := by
  have hne : c.entity_size ≠ 0 := by omega
  have hc0 : 0 ≤ Int.tdiv c.window_width c.entity_size := Int.tdiv_nonneg (by omega) (by omega)
  have hr0 : 0 ≤ Int.tdiv c.window_height c.entity_size := Int.tdiv_nonneg (by omega) (by omega)
  obtain ⟨hlen, hrows⟩ := build_grid_shape (Int.tdiv c.window_height c.entity_size)
    (Int.tdiv c.window_width c.entity_size) rand
  have hinit : initial_state c rand = some
      { window_width := c.window_width, window_height := c.window_height,
        entity_size := c.entity_size,
        entities := build_grid (Int.tdiv c.window_height c.entity_size)
          (Int.tdiv c.window_width c.entity_size) rand,
        columns := Int.tdiv c.window_width c.entity_size,
        rows := Int.tdiv c.window_height c.entity_size } := by
    simp [initial_state, grid_dims, c_div, hne]
  refine ⟨_, hinit, ?_, rfl, rfl⟩
  refine ⟨hes, rfl, rfl, ?_, ?_⟩
  · show ((build_grid _ _ rand).length : Int) = _
    rw [hlen]
    exact Int.toNat_of_nonneg hr0
  · intro row hrow
    show (row.length : Int) = _
    rw [hrows row hrow]
    exact Int.toNat_of_nonneg hc0

/-- Without a row or without a column the revive has no result, and neither has the frame. -/
theorem frame_revive_none (s : State) (h : Shaped s) (hno : ¬ (0 < s.rows ∧ 0 < s.columns))
    (r1 r2 : Nat) : frame s true r1 r2 = none := by
  have hlen := h.2.2.2.1
  have hrows := h.2.2.2.2
  have hzero : s.rows = 0 ∨ s.columns = 0 := by
    by_cases hr : s.rows = 0
    · exact Or.inl hr
    · right
      have hpos : 0 < s.entities.length := by omega
      have hmem : s.entities[0] ∈ s.entities := List.getElem_mem hpos
      have := hrows _ hmem
      omega
  unfold frame
  simp only [count_pass_eq s h, Option.bind_eq_bind, Option.some_bind, if_true]
  unfold revive c_mod
  rcases hzero with hz | hz
  · simp [hz]
  · by_cases hr : s.rows = 0
    · simp [hr]
    · simp [hr, hz]

/-- Every frame that returns keeps the configured shape, row by row. -/
theorem frame_keeps_shape (s : State) (h : Shaped s) (b : Bool) (r1 r2 : Nat) (s1 : State)
    (drawn : List Rect) (hf : frame s b r1 r2 = some (s1, drawn)) :
    Shaped s1 ∧ s1.rows = s.rows ∧ s1.columns = s.columns ∧
    s1.entities.length = s.entities.length ∧
    ∀ y : Nat, (s1.entities[y]?).map List.length = (s.entities[y]?).map List.length := by
  have key : ∃ F, s1 = { s with entities := gmap F s.entities } := by
    cases b with
    | false =>
      obtain ⟨d, hd⟩ := frame_no_revive_eq s h r1 r2
      rw [hd] at hf
      exact ⟨_, (Prod.mk.inj (Option.some.inj hf)).1.symm⟩
    | true =>
      by_cases hpos : 0 < s.rows ∧ 0 < s.columns
      · obtain ⟨d, hd⟩ := frame_revive_eq s h hpos.1 hpos.2 r1 r2 _ _ rfl rfl _ rfl
        rw [hd] at hf
        exact ⟨_, (Prod.mk.inj (Option.some.inj hf)).1.symm⟩
      · rw [frame_revive_none s h hpos r1 r2] at hf
        cases hf
  obtain ⟨F, hF⟩ := key
  subst hF
  refine ⟨shaped_gmap s h F, rfl, rfl, gmap_length F _, ?_⟩
  intro y
  show ((gmap F s.entities)[y]?).map List.length = _
  rw [gmap_getElem?]
  cases s.entities[y]? with
  | none => rfl
  | some row => simp

/-- A frame returns unless it is to revive a cell of a grid without cells. -/
theorem frame_returns (s : State) (h : Shaped s) (b : Bool) (r1 r2 : Nat)
    (hok : b = false ∨ (0 < s.rows ∧ 0 < s.columns)) :
    ∃ s1 drawn, frame s b r1 r2 = some (s1, drawn) := by
  cases b with
  | false =>
    obtain ⟨d, hd⟩ := frame_no_revive_eq s h r1 r2
    exact ⟨_, d, hd⟩
  | true =>
    rcases hok with hb | hpos
    · cases hb
    · obtain ⟨d, hd⟩ := frame_revive_eq s h hpos.1 hpos.2 r1 r2 _ _ rfl rfl _ rfl
      exact ⟨_, d, hd⟩

theorem parse_args_ok_pos (argv : List String) (c : Config) (hc : parse_args argv = .ok c) :
    0 < c.entity_size ∧ 0 < c.window_width ∧ 0 < c.window_height := by
  by_cases hlen : argv.length ≤ 1
  · unfold parse_args at hc
    simp [hlen] at hc
  · rcases parse_args_outcome argv (by omega) with ⟨msg, hexit, _⟩ | ⟨c1, hc1, p1, p2, p3, _⟩
    · rw [hexit] at hc
      cases hc
    · rw [hc1] at hc
      cases hc
      exact ⟨p1, p2, p3⟩

theorem tdiv_eq_fdiv_of_pos (a b : Int) (ha : 0 < a) (hb : 0 < b) :
    Int.tdiv a b = Int.fdiv a b := by
  rw [Int.tdiv_eq_ediv (by omega) (by omega), Int.fdiv_eq_ediv _ (by omega)]

/-! ## Lemmas: grids with the same alive flags -/

/-- Two grids of the same shape are transformed into the same grid when the transformed
cells agree position by position. -/
theorem gmap_eq_of_pointwise (F G : Nat → Nat → Entity → Entity) (g1 g2 : Grid)
    (hrow : ∀ y : Nat, (g1[y]?).map List.length = (g2[y]?).map List.length)
    (h : ∀ (x y : Nat) (e1 e2 : Entity), entity_at g1 (y : Int) (x : Int) = some e1 →
      entity_at g2 (y : Int) (x : Int) = some e2 → F x y e1 = G x y e2) :
    gmap F g1 = gmap G g2 := by
  apply List.ext_getElem?
  intro y
  rw [gmap_getElem?, gmap_getElem?]
  have hy := hrow y
  cases h1 : g1[y]? with
  | none =>
    cases h2 : g2[y]? with
    | none => rfl
    | some row2 => simp [h1, h2] at hy
  | some row1 =>
    cases h2 : g2[y]? with
    | none => simp [h1, h2] at hy
    | some row2 =>
      simp only [h1, h2, Option.map_some', Option.some.injEq] at hy
      simp only [Option.map_some', Option.some.injEq]
      apply List.ext_getElem?
      intro x
      simp only [List.getElem?_mapIdx]
      cases hx1 : row1[x]? with
      | none =>
        have : row2[x]? = none := by
          apply List.getElem?_eq_none
          have := List.getElem?_eq_none_iff.mp hx1
          omega
        rw [this]
        rfl
      | some e1 =>
        have hxl : x < row2.length := by
          have := (List.getElem?_eq_some.mp hx1).1
          omega
        have hx2 : row2[x]? = some row2[x] := List.getElem?_eq_getElem hxl
        rw [hx2]
        simp only [Option.map_some', Option.some.injEq]
        apply h
        · simp [entity_at_natCast, h1, hx1]
        · simp [entity_at_natCast, h2, hx2]

/-- Grids of one configured shape have the same row lengths. -/
theorem same_row_lengths (s : State) (g2 : Grid) (hs : Shaped s)
    (ht : Shaped { s with entities := g2 }) (y : Nat) :
    (s.entities[y]?).map List.length = (g2[y]?).map List.length := by
  have hl1 := hs.2.2.2.1
  have hl2 : (g2.length : Int) = s.rows := ht.2.2.2.1
  have hr1 := hs.2.2.2.2
  have hr2 : ∀ row ∈ g2, (row.length : Int) = s.columns := ht.2.2.2.2
  by_cases hy : y < g2.length
  · have hy1 : y < s.entities.length := by omega
    rw [List.getElem?_eq_getElem hy, List.getElem?_eq_getElem hy1]
    have a := hr1 _ (List.getElem_mem hy1)
    have b := hr2 _ (List.getElem_mem hy)
    simp only [Option.map_some', Option.some.injEq]
    omega
  · rw [List.getElem?_eq_none (by omega), List.getElem?_eq_none (by omega)]

theorem neighbor_sum_congr (g1 g2 : Grid) (h : ∀ x y : Int, alive_at g1 x y = alive_at g2 x y)
    (x y : Int) : neighbor_sum g1 x y = neighbor_sum g2 x y := by
  unfold neighbor_sum
  simp only [h]

/-- Without a row or without a column the revive has no result. -/
theorem revive_none (s : State) (h : Shaped s) (hno : ¬ (0 < s.rows ∧ 0 < s.columns))
    (r1 r2 : Nat) : revive s r1 r2 = none := by
  have hlen := h.2.2.2.1
  have hrows := h.2.2.2.2
  have hzero : s.rows = 0 ∨ s.columns = 0 := by
    by_cases hr : s.rows = 0
    · exact Or.inl hr
    · right
      have hpos : 0 < s.entities.length := by omega
      have hmem : s.entities[0] ∈ s.entities := List.getElem_mem hpos
      have := hrows _ hmem
      omega
  unfold revive c_mod
  rcases hzero with hz | hz
  · simp [hz]
  · by_cases hr : s.rows = 0
    · simp [hr]
    · simp [hr, hz]

/-! ## Lemmas: the indices `is_alive` uses -/

/-- The access function follows `is_alive`: where it gives no index `is_alive` returns false
without touching the grid, where it gives one `is_alive` returns what it reads there. -/
theorem is_alive_eq_access (s : State) (hes : s.entity_size ≠ 0) (x y : Int) :
    is_alive s x y = match is_alive_access s x y with
      | some idx => (entity_at s.entities idx.1 idx.2).map (fun e => e.alive)
      | none => some false := by
  unfold is_alive is_alive_access c_div
  by_cases hx : x < 0
  · simp [hx]
  · by_cases hy : y < 0
    · simp [hx, hy]
    · simp only [hx, hy, if_false, hes, Option.bind_eq_bind, Option.some_bind]
      by_cases hxc : x > Int.tdiv s.window_width s.entity_size - 1
      · simp [hxc]
      · by_cases hyr : y > Int.tdiv s.window_height s.entity_size - 1
        · simp [hxc, hyr]
        · simp only [hxc, hyr, if_false]
          cases entity_at s.entities y x <;> rfl

theorem is_alive_access_inRange (s : State) (h : Shaped s) (x y j i : Int)
    (hacc : is_alive_access s x y = some (j, i)) :
    j = y ∧ i = x ∧ 0 ≤ x ∧ x < s.columns ∧ 0 ≤ y ∧ y < s.rows := by
  have hes : s.entity_size ≠ 0 := by have := h.1; omega
  have hc := h.2.1
  have hr := h.2.2.1
  unfold is_alive_access c_div at hacc
  by_cases hx : x < 0
  · simp [hx] at hacc
  · by_cases hy : y < 0
    · simp [hx, hy] at hacc
    · simp only [hx, hy, if_false, hes, Option.bind_eq_bind, Option.some_bind, ← hc, ← hr]
        at hacc
      by_cases hxc : x > s.columns - 1
      · simp [hxc] at hacc
      · by_cases hyr : y > s.rows - 1
        · simp [hxc, hyr] at hacc
        · simp only [hxc, hyr, if_false, Option.some.injEq, Prod.mk.injEq] at hacc
          refine ⟨hacc.1.symm, hacc.2.symm, ?_, ?_, ?_, ?_⟩ <;> omega

/-! ## Lemmas: options without a number -/

/-- The rule on a 2 x 2 block: the cells alive afterwards are those of the block. -/
theorem block_rule (g : Grid) (bx by0 : Int)
    (hA : ∀ x y : Int, alive_at g x y = true ↔
      (bx ≤ x ∧ x ≤ bx + 1 ∧ by0 ≤ y ∧ y ≤ by0 + 1)) (x y : Int) :
    (neighbor_sum g x y = 3 ∨ (neighbor_sum g x y = 2 ∧ alive_at g x y = true)) ↔
      (bx ≤ x ∧ x ≤ bx + 1 ∧ by0 ≤ y ∧ y ≤ by0 + 1) := by
  have hb : ∀ x y : Int, b2i (alive_at g x y)
      = if (bx ≤ x ∧ x ≤ bx + 1 ∧ by0 ≤ y ∧ y ≤ by0 + 1) then 1 else 0 :=
    fun x y => b2i_eq_ite _ _ (hA x y)
  rw [hA x y]
  simp only [neighbor_sum, hb]
  repeat' (split <;> try omega)

/-- Any number of frames keeps a bordered block: the run returns, in a state of the same
shape with the same live cells. -/
theorem run_frames_block (k : Nat) (s : State) (h : Shaped s) (bx by0 : Int)
    (hborder : 1 ≤ bx ∧ bx + 1 ≤ s.columns - 2 ∧ 1 ≤ by0 ∧ by0 + 1 ≤ s.rows - 2)
    (hblock : ∀ x y : Int, alive_at s.entities x y = true ↔
      (bx ≤ x ∧ x ≤ bx + 1 ∧ by0 ≤ y ∧ y ≤ by0 + 1)) :
    ∃ sk, run_frames k s = some sk ∧
      ∀ x y : Int, alive_at sk.entities x y = true ↔
        (bx ≤ x ∧ x ≤ bx + 1 ∧ by0 ≤ y ∧ y ≤ by0 + 1) := by
  induction k generalizing s with
  | zero => exact ⟨s, rfl, hblock⟩
  | succ k ih =>
    obtain ⟨s1, d1, hf1, hsh1, hc1, hr1, ha1⟩ := frame_step_alive s h 0 0
    have hb1 : ∀ x y : Int, alive_at s1.entities x y = true ↔
        (bx ≤ x ∧ x ≤ bx + 1 ∧ by0 ≤ y ∧ y ≤ by0 + 1) := by
      intro x y
      rw [ha1 x y, block_rule s.entities bx by0 hblock x y]
      omega
    obtain ⟨sk, hk, hak⟩ := ih s1 hsh1 (by rw [hc1, hr1]; exact hborder) hb1
    refine ⟨sk, ?_, hak⟩
    simp only [run_frames, hf1, Option.some_bind, hk]

theorem bordered_block_cells (x y : Int) :
    alive_at block_state.entities x y = true ↔ (1 ≤ x ∧ x ≤ 1 + 1 ∧ 1 ≤ y ∧ y ≤ 1 + 1) := by
  by_cases hin : 0 ≤ x ∧ x < 4 ∧ 0 ≤ y ∧ y < 4
  · obtain ⟨hx0, hx1, hy0, hy1⟩ := hin
    interval_cases x <;> interval_cases y <;> decide
  · have hnone : entity_at block_state.entities y x = none :=
      entity_at_none_of_outRange block_state (by decide) x y
        (by show x < 0 ∨ y < 0 ∨ (4 : Int) ≤ x ∨ (4 : Int) ≤ y; omega)
    unfold alive_at
    rw [hnone]
    constructor
    · intro hf
      cases hf
    · intro hf
      omega

/-! ## The claims -/

/-- C1: with random revive off, one frame (counting pass, then rule pass, both in place)
produces exactly the grid of the reference B3/S23 step, which takes every count from a
snapshot of the grid before the frame; and in that grid a cell in range is alive iff before
the frame it had exactly 3 live neighbours, or exactly 2 and was alive itself. -/
theorem frame_refines_reference_step (s : State) (h : Shaped s) (r1 r2 : Nat) :
    ∃ drawn, frame s false r1 r2
        = some ({ s with entities := reference_step s.entities }, drawn) ∧
      ∀ x y : Int, 0 ≤ x → x < s.columns → 0 ≤ y → y < s.rows →
        (alive_at (reference_step s.entities) x y = true ↔
          (live_neighbours s.entities x y = 3 ∨
            (live_neighbours s.entities x y = 2 ∧ alive_at s.entities x y = true))) := by
  obtain ⟨drawn, hd⟩ := frame_no_revive_eq s h r1 r2
  rw [rule_count_eq_reference] at hd
  refine ⟨drawn, hd, ?_⟩
  intro x y hx0 hx1 hy0 hy1
  obtain ⟨e, he⟩ := entity_at_some_of_inRange s h x y hx0 hx1 hy0 hy1
  unfold reference_step
  rw [alive_at_gmap _ _ _ _ e he, alive_at_of_entity _ _ _ e he]
  have hxc : ((x.toNat : Nat) : Int) = x := Int.toNat_of_nonneg hx0
  have hyc : ((y.toNat : Nat) : Int) = y := Int.toNat_of_nonneg hy0
  simp only [hxc, hyc, decide_eq_true_eq]

/-- Witness for C1 on the 5 x 5 blinker grid. -/
theorem frame_refines_reference_step_witness :
    Shaped blinker_state ∧
    ∃ drawn, frame blinker_state false 0 0
        = some ({ blinker_state with entities := reference_step blinker_state.entities }, drawn) ∧
      ∀ x y : Int, 0 ≤ x → x < blinker_state.columns → 0 ≤ y → y < blinker_state.rows →
        (alive_at (reference_step blinker_state.entities) x y = true ↔
          (live_neighbours blinker_state.entities x y = 3 ∨
            (live_neighbours blinker_state.entities x y = 2 ∧
              alive_at blinker_state.entities x y = true))) :=
  ⟨by decide, frame_refines_reference_step blinker_state (by decide) 0 0⟩

/-- C2: the rule pass returns, and for every cell with stored neighbour count `n` the cell is
afterwards alive if `n = 3`, dead if `n < 2` or `n > 3`, and keeps its alive flag if `n = 2`;
the stored count itself is not changed. -/
theorem rule_pass_applies_rule (s : State) (h : Shaped s) :
    ∃ s1 drawn, rule_pass s = some (s1, drawn) ∧
      ∀ (x y : Int) (e : Entity), entity_at s.entities y x = some e →
        ∃ e1, entity_at s1.entities y x = some e1 ∧
          e1.neighbors = e.neighbors ∧
          (e.neighbors = 3 → e1.alive = true) ∧
          (e.neighbors < 2 ∨ e.neighbors > 3 → e1.alive = false) ∧
          (e.neighbors = 2 → e1.alive = e.alive) := by
  obtain ⟨drawn, hd⟩ := rule_pass_eq s h
  refine ⟨_, drawn, hd, ?_⟩
  intro x y e he
  refine ⟨rule_fn e, ?_, ?_, ?_, ?_, ?_⟩
  · simp only [entity_at_gmap, he, Option.map_some']
  · unfold rule_fn
    split
    · rfl
    · split <;> rfl
  · intro h3
    simp [rule_fn, h3]
  · intro h2
    have h3 : ¬ e.neighbors = 3 := by omega
    simp [rule_fn, h3, h2]
  · intro h2
    simp [rule_fn, h2]

/-- Witness for C2 on the single-row grid `alive, dead, alive`. -/
theorem rule_pass_applies_rule_witness :
    Shaped gap_state ∧
    ∃ s1 drawn, rule_pass gap_state = some (s1, drawn) ∧
      ∀ (x y : Int) (e : Entity), entity_at gap_state.entities y x = some e →
        ∃ e1, entity_at s1.entities y x = some e1 ∧
          e1.neighbors = e.neighbors ∧
          (e.neighbors = 3 → e1.alive = true) ∧
          (e.neighbors < 2 ∨ e.neighbors > 3 → e1.alive = false) ∧
          (e.neighbors = 2 → e1.alive = e.alive) :=
  ⟨by decide, rule_pass_applies_rule gap_state (by decide)⟩

/-- C3: for a positive entity size, `is_alive(x, y)` returns false for every coordinate with
`x < 0`, `y < 0`, `x >= columns` or `y >= rows` (whatever the grid holds: a dead border, no
wraparound), and for a coordinate in range it returns the alive flag stored in
`entities[y][x]`, a cell which exists whenever the grid has the configured shape. -/
theorem is_alive_dead_border (s : State) (hes : 0 < s.entity_size) (x y : Int) :
    ((x < 0 ∨ y < 0 ∨ Int.tdiv s.window_width s.entity_size ≤ x ∨
        Int.tdiv s.window_height s.entity_size ≤ y) → is_alive s x y = some false) ∧
    ((0 ≤ x ∧ x < Int.tdiv s.window_width s.entity_size ∧
        0 ≤ y ∧ y < Int.tdiv s.window_height s.entity_size) →
      (∀ e, entity_at s.entities y x = some e → is_alive s x y = some e.alive) ∧
      (Shaped s → ∃ e, entity_at s.entities y x = some e ∧ is_alive s x y = some e.alive)) := by
  have hne : s.entity_size ≠ 0 := by omega
  constructor
  · intro hout
    unfold is_alive
    by_cases hx : x < 0
    · simp [hx]
    · by_cases hy : y < 0
      · simp [hx, hy]
      · simp only [hx, hy, if_false, c_div, hne, Option.bind_eq_bind, Option.some_bind]
        by_cases hxc : x > Int.tdiv s.window_width s.entity_size - 1
        · simp [hxc]
        · have hyr : y > Int.tdiv s.window_height s.entity_size - 1 := by omega
          simp [hxc, hyr]
  · intro hin
    have hx : ¬ x < 0 := by omega
    have hy : ¬ y < 0 := by omega
    have hxc : ¬ x > Int.tdiv s.window_width s.entity_size - 1 := by omega
    have hyr : ¬ y > Int.tdiv s.window_height s.entity_size - 1 := by omega
    have hread : ∀ e, entity_at s.entities y x = some e → is_alive s x y = some e.alive := by
      intro e he
      unfold is_alive
      simp [hx, hy, c_div, hne, hxc, hyr, he]
    refine ⟨hread, ?_⟩
    intro hsh
    obtain ⟨e, he⟩ := entity_at_some_of_inRange s hsh x y (by omega)
      (by rw [hsh.2.1]; omega) (by omega) (by rw [hsh.2.2.1]; omega)
    exact ⟨e, he, hread e he⟩

/-- Witness for C3: the coordinate `(5, 2)`, one column beyond the 5 x 5 blinker grid, and the
live cell `(3, 2)` inside it. -/
theorem is_alive_dead_border_witness :
    (0 : Int) < blinker_state.entity_size ∧ is_alive blinker_state 5 2 = some false ∧
    ∃ e, entity_at blinker_state.entities 2 3 = some e ∧
      is_alive blinker_state 3 2 = some e.alive :=
  ⟨by decide, (is_alive_dead_border blinker_state (by decide) 5 2).1 (by decide),
    ((is_alive_dead_border blinker_state (by decide) 3 2).2 (by decide)).2 (by decide)⟩

/-- C4: the counting pass returns, and afterwards every cell `(x, y)` in range stores the
number of live cells among its eight surrounding coordinates (out-of-range ones dead), a
number in `[0, 8]`; the pass changes no alive flag, so the number is the same whether taken
in the grid before or after the pass. -/
theorem count_pass_counts (s : State) (h : Shaped s) :
    ∃ s1, count_pass s = some s1 ∧
      (∀ x y : Int, alive_at s1.entities x y = alive_at s.entities x y) ∧
      ∀ x y : Int, 0 ≤ x → x < s.columns → 0 ≤ y → y < s.rows →
        ∃ e, entity_at s1.entities y x = some e ∧
          e.neighbors = (live_neighbours s.entities x y : Int) ∧
          e.neighbors = (live_neighbours s1.entities x y : Int) ∧
          0 ≤ e.neighbors ∧ e.neighbors ≤ 8 := by
  have halive : ∀ x y : Int,
      alive_at (gmap (count_fn s.entities) s.entities) x y = alive_at s.entities x y :=
    alive_at_gmap_of_preserved (count_fn s.entities) (fun _ _ _ => rfl) s.entities
  refine ⟨_, count_pass_eq s h, halive, ?_⟩
  intro x y hx0 hx1 hy0 hy1
  obtain ⟨e, he⟩ := entity_at_some_of_inRange s h x y hx0 hx1 hy0 hy1
  have hxc : ((x.toNat : Nat) : Int) = x := Int.toNat_of_nonneg hx0
  have hyc : ((y.toNat : Nat) : Int) = y := Int.toNat_of_nonneg hy0
  have hle := live_neighbours_le s.entities x y
  have hsame := live_neighbours_congr _ _ halive x y
  refine ⟨count_fn s.entities x.toNat y.toNat e, ?_, ?_, ?_, ?_, ?_⟩
  · simp only [entity_at_gmap, he, Option.map_some']
  · simp only [count_fn, hxc, hyc, neighbor_sum_eq]
  · simp only [count_fn, hxc, hyc, neighbor_sum_eq, hsame]
  · simp only [count_fn, hxc, hyc, neighbor_sum_eq]
    omega
  · simp only [count_fn, hxc, hyc, neighbor_sum_eq]
    omega

/-- Witness for C4 on the 5 x 5 blinker grid, whose stored counts are stale. -/
theorem count_pass_counts_witness :
    Shaped blinker_state ∧
    ∃ s1, count_pass blinker_state = some s1 ∧
      (∀ x y : Int, alive_at s1.entities x y = alive_at blinker_state.entities x y) ∧
      ∀ x y : Int, 0 ≤ x → x < blinker_state.columns → 0 ≤ y → y < blinker_state.rows →
        ∃ e, entity_at s1.entities y x = some e ∧
          e.neighbors = (live_neighbours blinker_state.entities x y : Int) ∧
          e.neighbors = (live_neighbours s1.entities x y : Int) ∧
          0 ≤ e.neighbors ∧ e.neighbors ≤ 8 :=
  ⟨by decide, count_pass_counts blinker_state (by decide)⟩

/-- Counterexample to C5 as stated: on the grid of one dead cell the revive selects that cell,
and at the end of the frame it is dead, the rule pass having run after the revive. -/
theorem revived_cell_dies_in_same_frame :
    ∃ s1 drawn, frame lone_state true 0 0 = some (s1, drawn) ∧
      alive_at s1.entities (Int.tmod (0 : Nat) lone_state.columns)
        (Int.tmod (0 : Nat) lone_state.rows) = false :=
  ⟨_, _, rfl, rfl⟩

/-- C5 (as amended): in random-revive mode a frame on a grid with at least one row and one
column runs the counting pass, then the revive, then the rule pass, and it returns; the cell
the revive selects is alive at the end of the frame iff it had exactly 2 or exactly 3 live
neighbours before the frame, and every other cell in range holds its B3/S23 successor. -/
theorem frame_with_revive (s : State) (h : Shaped s) (hr : 0 < s.rows) (hc : 0 < s.columns)
    (r1 r2 : Nat) :
    ∃ s1 drawn, frame s true r1 r2 = some (s1, drawn) ∧
      (alive_at s1.entities (Int.tmod r2 s.columns) (Int.tmod r1 s.rows) = true ↔
        (live_neighbours s.entities (Int.tmod r2 s.columns) (Int.tmod r1 s.rows) = 2 ∨
         live_neighbours s.entities (Int.tmod r2 s.columns) (Int.tmod r1 s.rows) = 3)) ∧
      ∀ x y : Int, 0 ≤ x → x < s.columns → 0 ≤ y → y < s.rows →
        ¬ (x = Int.tmod r2 s.columns ∧ y = Int.tmod r1 s.rows) →
        (alive_at s1.entities x y = true ↔
          (live_neighbours s.entities x y = 3 ∨
            (live_neighbours s.entities x y = 2 ∧ alive_at s.entities x y = true))) := by
  have hy0 : 0 ≤ Int.tmod r1 s.rows := Int.tmod_nonneg _ (Int.ofNat_nonneg _)
  have hy1 : Int.tmod r1 s.rows < s.rows := Int.tmod_lt_of_pos _ hr
  have hx0 : 0 ≤ Int.tmod r2 s.columns := Int.tmod_nonneg _ (Int.ofNat_nonneg _)
  have hx1 : Int.tmod r2 s.columns < s.columns := Int.tmod_lt_of_pos _ hc
  obtain ⟨drawn, hd⟩ := frame_revive_eq s h hr hc r1 r2 _ _ rfl rfl _ rfl
  refine ⟨_, drawn, hd, ?_, ?_⟩
  · obtain ⟨e, he⟩ := entity_at_some_of_inRange s h _ _ hx0 hx1 hy0 hy1
    rw [alive_at_gmap _ _ _ _ e he]
    have hxc := Int.toNat_of_nonneg hx0
    have hyc := Int.toNat_of_nonneg hy0
    rw [rule_fn_alive_iff _ (live_neighbours s.entities (Int.tmod r2 s.columns) (Int.tmod r1 s.rows))
      (by simp [revive_fn, count_fn, hxc, hyc, neighbor_sum_eq])]
    simp only [revive_fn, and_self, if_true]
    constructor
    · rintro (h3 | ⟨h2, _⟩)
      · exact Or.inr h3
      · exact Or.inl h2
    · rintro (h2 | h3)
      · exact Or.inr ⟨h2, trivial⟩
      · exact Or.inl h3
  · intro x y hx0' hx1' hy0' hy1' hne
    obtain ⟨e, he⟩ := entity_at_some_of_inRange s h x y hx0' hx1' hy0' hy1'
    rw [alive_at_gmap _ _ _ _ e he, alive_at_of_entity _ _ _ e he]
    have hxc := Int.toNat_of_nonneg hx0'
    have hyc := Int.toNat_of_nonneg hy0'
    have hsel : ¬ (y.toNat = (Int.tmod r1 s.rows).toNat ∧ x.toNat = (Int.tmod r2 s.columns).toNat) := by
      omega
    rw [rule_fn_alive_iff _ (live_neighbours s.entities x y)
      (by simp [revive_fn, hsel, count_fn, hxc, hyc, neighbor_sum_eq])]
    simp [revive_fn, hsel, count_fn]

/-- Witness for C5 (as amended): the 5 x 5 blinker grid with the random values 7 and 3. -/
theorem frame_with_revive_witness :
    Shaped blinker_state ∧ 0 < blinker_state.rows ∧ 0 < blinker_state.columns ∧
    ∃ s1 drawn, frame blinker_state true 7 3 = some (s1, drawn) ∧
      (alive_at s1.entities (Int.tmod (3 : Nat) blinker_state.columns)
          (Int.tmod (7 : Nat) blinker_state.rows) = true ↔
        (live_neighbours blinker_state.entities (Int.tmod (3 : Nat) blinker_state.columns)
            (Int.tmod (7 : Nat) blinker_state.rows) = 2 ∨
         live_neighbours blinker_state.entities (Int.tmod (3 : Nat) blinker_state.columns)
            (Int.tmod (7 : Nat) blinker_state.rows) = 3)) ∧
      ∀ x y : Int, 0 ≤ x → x < blinker_state.columns → 0 ≤ y → y < blinker_state.rows →
        ¬ (x = Int.tmod (3 : Nat) blinker_state.columns ∧
            y = Int.tmod (7 : Nat) blinker_state.rows) →
        (alive_at s1.entities x y = true ↔
          (live_neighbours blinker_state.entities x y = 3 ∨
            (live_neighbours blinker_state.entities x y = 2 ∧
              alive_at blinker_state.entities x y = true))) :=
  ⟨by decide, by decide, by decide,
    frame_with_revive blinker_state (by decide) (by decide) (by decide) 7 3⟩

/-- C6 (evaluation at the failing input): on the single row `alive, dead, alive` one frame
leaves the middle cell dead, its count being 2, and yet fills exactly its rectangle
`(5, 0, 5, 5)`. -/
theorem dead_cell_with_two_neighbours_is_drawn :
    ∃ s1, frame gap_state false 0 0 = some (s1, [{ x := 5, y := 0, w := 5, h := 5 }]) ∧
      alive_at s1.entities 1 0 = false ∧
      (entity_at s1.entities 0 1).map (fun e => e.neighbors) = some 2 :=
  ⟨_, rfl, rfl, rfl⟩

/-- C7 (evaluation at the failing input): the arguments `gol 5 1280 720 -1` are accepted and
the fps cap becomes 4294967295; the comparison `fps_cap < 0` on the unsigned variable never
holds, so the fps-cap option never ends the run. -/
theorem negative_fps_cap_is_accepted :
    parse_args ["gol", "5", "1280", "720", "-1"]
      = .ok { entity_size := 5, window_width := 1280, window_height := 720,
              fps_cap := 4294967295, random_revive := false } ∧
    ∀ (argv : List String) (c : Config), ∃ c1, parse_fps_cap argv c = .ok c1 :=
  ⟨rfl, parse_fps_cap_never_exits⟩

/-- C8: when the entity-size, width or height argument parses to an integer `<= 0`, `main`
returns early with success status and one of the three range messages, so before the grid is
sized; and every run that gets past the options has `entity_size > 0`, `window_width > 0`
and `window_height > 0`, so that the divisions giving `columns` and `rows` are defined. -/
theorem range_failure_exits_before_grid (argv : List String) :
    (∀ (i : Nat) (v : Int), (i = 1 ∨ i = 2 ∨ i = 3) → i < argv.length →
      stoi (arg argv i) = some v → v ≤ 0 →
      ∃ msg, parse_args argv = .error (ExitStatus.EXIT_SUCCESS, msg) ∧
        (msg = entity_size_error ∨ msg = window_width_error ∨ msg = window_height_error)) ∧
    (∀ c, parse_args argv = .ok c →
      0 < c.entity_size ∧ 0 < c.window_width ∧ 0 < c.window_height ∧
      grid_dims c = some (Int.tdiv c.window_width c.entity_size,
        Int.tdiv c.window_height c.entity_size)) := by
  constructor
  · intro i v hi hlt hv hle
    rcases parse_args_outcome argv (by omega) with hexit | ⟨c, _, _, _, _, h1, h2, h3⟩
    · exact hexit
    · exfalso
      rcases hi with rfl | rfl | rfl
      · have := h1 v hlt hv
        omega
      · have := h2 v hlt hv
        omega
      · have := h3 v hlt hv
        omega
  · intro c hc
    by_cases hlen : argv.length ≤ 1
    · unfold parse_args at hc
      simp [hlen] at hc
    · rcases parse_args_outcome argv (by omega) with ⟨msg, hexit, _⟩ | ⟨c1, hc1, p1, p2, p3, _⟩
      · rw [hexit] at hc
        cases hc
      · rw [hc1] at hc
        cases hc
        have hne : c.entity_size ≠ 0 := by omega
        refine ⟨p1, p2, p3, ?_⟩
        simp [grid_dims, c_div, hne]

/-- Witness for C8: `gol 0` exits early, `gol 10 100 50` reaches the divisions. -/
theorem range_failure_exits_before_grid_witness :
    (stoi (arg ["gol", "0"] 1) = some 0 ∧
      ∃ msg, parse_args ["gol", "0"] = .error (ExitStatus.EXIT_SUCCESS, msg) ∧
        (msg = entity_size_error ∨ msg = window_width_error ∨ msg = window_height_error)) ∧
    (parse_args ["gol", "10", "100", "50"]
        = .ok { entity_size := 10, window_width := 100, window_height := 50, fps_cap := 60,
                random_revive := false } ∧
      grid_dims { entity_size := 10, window_width := 100, window_height := 50, fps_cap := 60,
                  random_revive := false } = some (10, 5)) :=
  ⟨⟨rfl, (range_failure_exits_before_grid ["gol", "0"]).1 1 0 (Or.inl rfl) (by decide) rfl
      (by decide)⟩,
   ⟨rfl, ((range_failure_exits_before_grid ["gol", "10", "100", "50"]).2 _ rfl).2.2.2⟩⟩

/-- C9 (evaluation at the failing input): the arguments `gol 10 5 5 60 true` pass validation
and give `columns = rows = 0`; on the grid built for them the revive computes
`std::rand() % 0` for every pair of random values, so it and the frame have no result. -/
theorem revive_divides_by_zero :
    parse_args ["gol", "10", "5", "5", "60", "true"]
      = .ok { entity_size := 10, window_width := 5, window_height := 5,
              fps_cap := 60, random_revive := true } ∧
    grid_dims { entity_size := 10, window_width := 5, window_height := 5,
                fps_cap := 60, random_revive := true } = some (0, 0) ∧
    Shaped empty_state ∧
    ∀ r1 r2 : Nat, c_mod r1 empty_state.rows = none ∧ revive empty_state r1 r2 = none ∧
      frame empty_state true r1 r2 = none := by
  refine ⟨rfl, rfl, by decide, ?_⟩
  intro r1 r2
  have hc : count_pass empty_state = some empty_state := rfl
  have hm : c_mod r1 empty_state.rows = none := by simp [c_mod, empty_state]
  have hr : revive empty_state r1 r2 = none := by
    unfold revive
    rw [hm]
    rfl
  refine ⟨hm, hr, ?_⟩
  unfold frame
  rw [hc]
  simp [hr]

/-- C10: on a grid that is dead except a horizontal line of three live cells centred at
`(cx, cy)`, with at least two dead cells of border on every side, one frame (revive off)
leaves alive exactly the vertical line of three through `(cx, cy)`, and a second frame
leaves alive exactly the original horizontal line. -/
theorem blinker_oscillates (s : State) (h : Shaped s) (cx cy : Int)
    (hborder : 2 ≤ cx - 1 ∧ cx + 1 ≤ s.columns - 3 ∧ 2 ≤ cy ∧ cy ≤ s.rows - 3)
    (hline : ∀ x y : Int, alive_at s.entities x y = true ↔ (y = cy ∧ cx - 1 ≤ x ∧ x ≤ cx + 1))
    (r1 r2 r3 r4 : Nat) :
    ∃ s1 d1 s2 d2, frame s false r1 r2 = some (s1, d1) ∧
      (∀ x y : Int, alive_at s1.entities x y = true ↔ (x = cx ∧ cy - 1 ≤ y ∧ y ≤ cy + 1)) ∧
      frame s1 false r3 r4 = some (s2, d2) ∧
      (∀ x y : Int, alive_at s2.entities x y = true ↔ (y = cy ∧ cx - 1 ≤ x ∧ x ≤ cx + 1)) := by
  obtain ⟨s1, d1, hf1, hsh1, hc1, hr1, ha1⟩ := frame_step_alive s h r1 r2
  obtain ⟨s2, d2, hf2, _, _, _, ha2⟩ := frame_step_alive s1 hsh1 r3 r4
  have hv : ∀ x y : Int, alive_at s1.entities x y = true ↔ (x = cx ∧ cy - 1 ≤ y ∧ y ≤ cy + 1) := by
    intro x y
    rw [ha1 x y, blinker_horizontal_rule s.entities cx cy hline x y]
    omega
  refine ⟨s1, d1, s2, d2, hf1, hv, hf2, ?_⟩
  intro x y
  rw [ha2 x y, blinker_vertical_rule s1.entities cx cy hv x y, hc1, hr1]
  omega

/-- Witness for C10: the 7 x 5 grid with the blinker centred at `(3, 2)`. -/
theorem blinker_oscillates_witness :
    Shaped bordered_blinker_state ∧
    ((2 : Int) ≤ 3 - 1 ∧ (3 : Int) + 1 ≤ bordered_blinker_state.columns - 3 ∧ (2 : Int) ≤ 2 ∧
      (2 : Int) ≤ bordered_blinker_state.rows - 3) ∧
    (∀ x y : Int, alive_at bordered_blinker_state.entities x y = true ↔
      (y = 2 ∧ 3 - 1 ≤ x ∧ x ≤ 3 + 1)) ∧
    ∃ s1 d1 s2 d2, frame bordered_blinker_state false 0 0 = some (s1, d1) ∧
      (∀ x y : Int, alive_at s1.entities x y = true ↔ (x = 3 ∧ 2 - 1 ≤ y ∧ y ≤ 2 + 1)) ∧
      frame s1 false 0 0 = some (s2, d2) ∧
      (∀ x y : Int, alive_at s2.entities x y = true ↔ (y = 2 ∧ 3 - 1 ≤ x ∧ x ≤ 3 + 1)) :=
  ⟨by decide, by decide, bordered_blinker_line,
    blinker_oscillates bordered_blinker_state (by decide) 3 2 (by decide) bordered_blinker_line
      0 0 0 0⟩

/-- C11: on a grid that is dead except a 2 x 2 block of live cells, with at least one dead
cell of border on every side, `k` frames (revive off) return for every `k >= 0`, and the
cells alive afterwards are exactly the cells alive at the start. -/
theorem block_is_still (s : State) (h : Shaped s) (bx by0 : Int)
    (hborder : 1 ≤ bx ∧ bx + 1 ≤ s.columns - 2 ∧ 1 ≤ by0 ∧ by0 + 1 ≤ s.rows - 2)
    (hblock : ∀ x y : Int, alive_at s.entities x y = true ↔
      (bx ≤ x ∧ x ≤ bx + 1 ∧ by0 ≤ y ∧ y ≤ by0 + 1))
    (k : Nat) :
    ∃ sk, run_frames k s = some sk ∧
      ∀ x y : Int, alive_at sk.entities x y = alive_at s.entities x y := by
  obtain ⟨sk, hk, hak⟩ := run_frames_block k s h bx by0 hborder hblock
  refine ⟨sk, hk, ?_⟩
  intro x y
  exact Bool.eq_iff_iff.mpr ((hak x y).trans (hblock x y).symm)

/-- Witness for C11: the 4 x 4 grid with the block in its middle, after 3 frames. -/
theorem block_is_still_witness :
    Shaped block_state ∧
    ((1 : Int) ≤ 1 ∧ (1 : Int) + 1 ≤ block_state.columns - 2 ∧ (1 : Int) ≤ 1 ∧
      (1 : Int) + 1 ≤ block_state.rows - 2) ∧
    (∀ x y : Int, alive_at block_state.entities x y = true ↔
      (1 ≤ x ∧ x ≤ 1 + 1 ∧ 1 ≤ y ∧ y ≤ 1 + 1)) ∧
    ∃ sk, run_frames 3 block_state = some sk ∧
      ∀ x y : Int, alive_at sk.entities x y = alive_at block_state.entities x y :=
  ⟨by decide, by decide, bordered_block_cells,
    block_is_still block_state (by decide) 1 1 (by decide) bordered_block_cells 3⟩

/-- C12: for every configuration that passed validation the grid built at start-up has
`rows = floor (window_height / entity_size)` rows of
`columns = floor (window_width / entity_size)` cells each; and every frame that is run on a
grid of the configured shape, with or without revive, returns a grid with the same number of
rows and the same length of every row (a frame returns unless it is to revive a cell of a
grid without cells). -/
theorem grid_shape_is_fixed (argv : List String) (c : Config) (rand : Nat → Nat)
    (hc : parse_args argv = .ok c) :
    ∃ s, initial_state c rand = some s ∧
      s.rows = Int.fdiv c.window_height c.entity_size ∧
      s.columns = Int.fdiv c.window_width c.entity_size ∧
      (s.entities.length : Int) = s.rows ∧
      (∀ row ∈ s.entities, (row.length : Int) = s.columns) ∧
      Shaped s ∧
      ∀ t : State, Shaped t → ∀ (b : Bool) (r1 r2 : Nat),
        (∀ t1 drawn, frame t b r1 r2 = some (t1, drawn) →
          Shaped t1 ∧ t1.rows = t.rows ∧ t1.columns = t.columns ∧
          t1.entities.length = t.entities.length ∧
          ∀ y : Nat, (t1.entities[y]?).map List.length = (t.entities[y]?).map List.length) ∧
        ((b = false ∨ (0 < t.rows ∧ 0 < t.columns)) →
          ∃ t1 drawn, frame t b r1 r2 = some (t1, drawn)) := by
  obtain ⟨hes, hw, hh⟩ := parse_args_ok_pos argv c hc
  obtain ⟨s, hs, hsh, hcol, hrow⟩ := initial_state_shaped c rand hes hw hh
  refine ⟨s, hs, ?_, ?_, hsh.2.2.2.1, hsh.2.2.2.2, hsh, ?_⟩
  · rw [hrow, tdiv_eq_fdiv_of_pos _ _ hh hes]
  · rw [hcol, tdiv_eq_fdiv_of_pos _ _ hw hes]
  · intro t ht b r1 r2
    exact ⟨fun t1 drawn hf => frame_keeps_shape t ht b r1 r2 t1 drawn hf,
      frame_returns t ht b r1 r2⟩

/-- Witness for C12: `gol 10 100 50` gives 5 rows of 10 cells. -/
theorem grid_shape_is_fixed_witness :
    parse_args ["gol", "10", "100", "50"]
      = .ok { entity_size := 10, window_width := 100, window_height := 50, fps_cap := 60,
              random_revive := false } ∧
    ∃ s, initial_state { entity_size := 10, window_width := 100, window_height := 50,
                         fps_cap := 60, random_revive := false } (fun k => k) = some s ∧
      s.rows = 5 ∧ s.columns = 10 ∧
      (s.entities.length : Int) = s.rows ∧
      (∀ row ∈ s.entities, (row.length : Int) = s.columns) ∧
      Shaped s ∧
      ∀ t : State, Shaped t → ∀ (b : Bool) (r1 r2 : Nat),
        (∀ t1 drawn, frame t b r1 r2 = some (t1, drawn) →
          Shaped t1 ∧ t1.rows = t.rows ∧ t1.columns = t.columns ∧
          t1.entities.length = t.entities.length ∧
          ∀ y : Nat, (t1.entities[y]?).map List.length = (t.entities[y]?).map List.length) ∧
        ((b = false ∨ (0 < t.rows ∧ 0 < t.columns)) →
          ∃ t1 drawn, frame t b r1 r2 = some (t1, drawn)) :=
  ⟨rfl, grid_shape_is_fixed ["gol", "10", "100", "50"] _ (fun k => k) rfl⟩

/-- Counterexample to C14 as stated: with fps cap 60 the budget is 16 ms; in an iteration that
took 1 ms but ends 1001 ms after the last reset, the FPS report is made and `SDL_Delay` is
not called. -/
theorem no_pacing_in_reporting_iteration :
    default_delay 60 = 16 ∧ u32_sub 1001 1000 = 1 ∧
    (end_of_iteration (default_delay 60) { fps := 59, t1 := 0 } 1000 1001 1002).2
      = [Action.SDL_SetWindowTitle "GOL - 60 FPS"] := by
  decide

/-- C14 (as amended): in an iteration that does not make the FPS report, when the budget `d`
exceeds the elapsed time `e` of the iteration the loop calls `SDL_Delay (d - e)` and nothing
else; in a reporting iteration, and whenever the budget is zero, `SDL_Delay` is not called. -/
theorem pacing_outside_report (fps_cap : Nat) (p : Pace) (t2_1 t2_2 t3 : Nat) :
    (¬ u32_sub t2_2 p.t1 > 1000 → u32_sub t2_2 t2_1 < default_delay fps_cap →
      (end_of_iteration (default_delay fps_cap) p t2_1 t2_2 t3).2
        = [Action.SDL_Delay (default_delay fps_cap - u32_sub t2_2 t2_1)]) ∧
    (u32_sub t2_2 p.t1 > 1000 → ∀ ms,
      Action.SDL_Delay ms ∉ (end_of_iteration (default_delay fps_cap) p t2_1 t2_2 t3).2) ∧
    (default_delay fps_cap = 0 → ∀ ms,
      Action.SDL_Delay ms ∉ (end_of_iteration (default_delay fps_cap) p t2_1 t2_2 t3).2) := by
  refine ⟨?_, ?_, ?_⟩
  · intro hrep hlt
    have hle := default_delay_le fps_cap
    unfold end_of_iteration
    simp only [hrep, hlt, if_true, if_false]
    rw [u32_sub_of_le _ _ (by omega) (by omega)]
  · intro hrep ms
    unfold end_of_iteration
    simp [hrep]
  · intro hz ms
    rw [hz]
    exact no_delay_of_zero_budget p t2_1 t2_2 t3 ms

/-- Witness for C14 (as amended): budget 16 ms, an iteration of 10 ms, 510 ms after the last
reset. -/
theorem pacing_outside_report_witness :
    ¬ u32_sub 510 0 > 1000 ∧ u32_sub 510 500 < default_delay 60 ∧
    (end_of_iteration (default_delay 60) { fps := 29, t1 := 0 } 500 510 0).2
      = [Action.SDL_Delay (default_delay 60 - u32_sub 510 500)] :=
  ⟨by decide, by decide,
    (pacing_outside_report 60 { fps := 29, t1 := 0 } 500 510 0).1 (by decide) (by decide)⟩

/-- Counterexample to C15 as stated: exactly 1000 ms after the last reset no title is set and
the counter is not reset. -/
theorem no_report_at_exactly_one_second :
    u32_sub 1000 0 = 1000 ∧
    end_of_iteration 16 { fps := 59, t1 := 0 } 990 1000 1000
      = ({ fps := 60, t1 := 0 }, [Action.SDL_Delay 6]) := by
  decide

/-- C15 (as amended): an iteration sets the title `GOL - <fps> FPS`, `<fps>` being the count
including the current frame, and resets the counter to 0 and the timer to a fresh tick
value, if and only if more than 1000 ms have elapsed since the last reset; otherwise it sets
no title, keeps the timer and only increments the counter. -/
theorem fps_report_after_more_than_a_second (delay : Nat) (p : Pace) (t2_1 t2_2 t3 : Nat) :
    (u32_sub t2_2 p.t1 > 1000 →
      end_of_iteration delay p t2_1 t2_2 t3 = ({ fps := 0, t1 := t3 },
        [Action.SDL_SetWindowTitle ("GOL - " ++ toString ((p.fps + 1) % 2 ^ 32) ++ " FPS")])) ∧
    (¬ u32_sub t2_2 p.t1 > 1000 →
      (end_of_iteration delay p t2_1 t2_2 t3).1 = { fps := (p.fps + 1) % 2 ^ 32, t1 := p.t1 } ∧
      ∀ title, Action.SDL_SetWindowTitle title ∉ (end_of_iteration delay p t2_1 t2_2 t3).2) := by
  constructor
  · intro h
    unfold end_of_iteration
    simp only [h, if_true]
  · intro h
    unfold end_of_iteration
    simp only [h, if_false]
    split <;> simp

/-- Witness for C15 (as amended): 1001 ms after the last reset, with 59 frames counted. -/
theorem fps_report_after_more_than_a_second_witness :
    u32_sub 1001 0 > 1000 ∧
    end_of_iteration 16 { fps := 59, t1 := 0 } 1000 1001 1002
      = ({ fps := 0, t1 := 1002 }, [Action.SDL_SetWindowTitle "GOL - 60 FPS"]) :=
  ⟨by decide,
    (fps_report_after_more_than_a_second 16 { fps := 59, t1 := 0 } 1000 1001 1002).1 (by decide)⟩

/-- C16: two grids of the same shape whose alive flags agree cell for cell, whatever their
stored neighbour counts, are taken by one frame (same revive switch, same random values) to
one and the same grid, alive flags and neighbour counts alike; the frame returns for both,
unless it is to revive a cell of a grid without cells, where it returns for neither. -/
theorem stale_counts_never_matter (s : State) (g2 : Grid) (hs : Shaped s)
    (ht : Shaped { s with entities := g2 })
    (halive : ∀ x y : Int, alive_at g2 x y = alive_at s.entities x y)
    (b : Bool) (r1 r2 : Nat) :
    (frame s b r1 r2).map (fun p => p.1)
      = (frame { s with entities := g2 } b r1 r2).map (fun p => p.1) ∧
    ((b = false ∨ (0 < s.rows ∧ 0 < s.columns)) →
      ∃ s1 d1 d2, frame s b r1 r2 = some (s1, d1) ∧
        frame { s with entities := g2 } b r1 r2 = some (s1, d2)) := by
  have hrow := same_row_lengths s g2 hs ht
  have hcount : ∀ (x y : Nat) (e1 e2 : Entity), entity_at s.entities (y : Int) (x : Int) = some e1 →
      entity_at g2 (y : Int) (x : Int) = some e2 →
      count_fn s.entities x y e1 = count_fn g2 x y e2 := by
    intro x y e1 e2 h1 h2
    have ha := halive x y
    rw [alive_at_of_entity _ _ _ e1 h1, alive_at_of_entity _ _ _ e2 h2] at ha
    unfold count_fn
    rw [neighbor_sum_congr g2 s.entities halive, ha]
  have htotal : (b = false ∨ (0 < s.rows ∧ 0 < s.columns)) →
      ∃ s1 d1 d2, frame s b r1 r2 = some (s1, d1) ∧
        frame { s with entities := g2 } b r1 r2 = some (s1, d2) := by
    intro hok
    cases b with
    | false =>
      obtain ⟨d1, hd1⟩ := frame_no_revive_eq s hs r1 r2
      obtain ⟨d2, hd2⟩ := frame_no_revive_eq _ ht r1 r2
      refine ⟨_, d1, d2, hd1, ?_⟩
      rw [hd2]
      have : gmap (fun x y e => rule_fn (count_fn g2 x y e)) g2
          = gmap (fun x y e => rule_fn (count_fn s.entities x y e)) s.entities := by
        apply gmap_eq_of_pointwise _ _ _ _ (fun y => (hrow y).symm)
        intro x y e1 e2 h1 h2
        rw [hcount x y e2 e1 h2 h1]
      simp only [this]
    | true =>
      rcases hok with hb | hpos
      · cases hb
      · obtain ⟨d1, hd1⟩ := frame_revive_eq s hs hpos.1 hpos.2 r1 r2 _ _ rfl rfl _ rfl
        obtain ⟨d2, hd2⟩ := frame_revive_eq _ ht hpos.1 hpos.2 r1 r2 _ _ rfl rfl _ rfl
        refine ⟨_, d1, d2, hd1, ?_⟩
        rw [hd2]
        have : gmap (fun x y e => rule_fn (revive_fn (Int.tmod r2 s.columns).toNat
              (Int.tmod r1 s.rows).toNat x y (count_fn g2 x y e))) g2
            = gmap (fun x y e => rule_fn (revive_fn (Int.tmod r2 s.columns).toNat
              (Int.tmod r1 s.rows).toNat x y (count_fn s.entities x y e))) s.entities := by
          apply gmap_eq_of_pointwise _ _ _ _ (fun y => (hrow y).symm)
          intro x y e1 e2 h1 h2
          rw [hcount x y e2 e1 h2 h1]
        simp only [this]
  refine ⟨?_, htotal⟩
  by_cases hok : b = false ∨ (0 < s.rows ∧ 0 < s.columns)
  · obtain ⟨s1, d1, d2, h1, h2⟩ := htotal hok
    rw [h1, h2]
    rfl
  · have hb : b = true := by
      cases b with
      | false => exact absurd (Or.inl rfl) hok
      | true => rfl
    have hno : ¬ (0 < s.rows ∧ 0 < s.columns) := fun h => hok (Or.inr h)
    subst hb
    rw [frame_revive_none s hs hno, frame_revive_none _ ht hno]

/-- Witness for C16: the 5 x 5 blinker grid with stored counts 7 and with stored counts 0. -/
theorem stale_counts_never_matter_witness :
    Shaped blinker_state ∧
    Shaped { blinker_state with entities := gmap (count_fn []) blinker_state.entities } ∧
    (∀ x y : Int, alive_at (gmap (count_fn []) blinker_state.entities) x y
      = alive_at blinker_state.entities x y) ∧
    (frame blinker_state true 7 3).map (fun p => p.1)
      = (frame { blinker_state with entities := gmap (count_fn []) blinker_state.entities }
          true 7 3).map (fun p => p.1) :=
  ⟨by decide, shaped_gmap blinker_state (by decide) (count_fn []),
    alive_at_gmap_of_preserved (count_fn []) (fun _ _ _ => rfl) blinker_state.entities,
    (stale_counts_never_matter blinker_state (gmap (count_fn []) blinker_state.entities)
      (by decide) (shaped_gmap blinker_state (by decide) (count_fn []))
      (alive_at_gmap_of_preserved (count_fn []) (fun _ _ _ => rfl) blinker_state.entities)
      true 7 3).1⟩

/-- C17: when the cell the revive selects is already alive the revive returns the state it
was given, every alive flag and every neighbour count unchanged; and a second revive that
selects the same cell changes nothing after the first. -/
theorem revive_is_idempotent (s : State) (h : Shaped s) (r1 r2 r3 r4 : Nat)
    (hrow : Int.tmod r3 s.rows = Int.tmod r1 s.rows)
    (hcol : Int.tmod r4 s.columns = Int.tmod r2 s.columns) :
    (0 < s.rows → 0 < s.columns →
      alive_at s.entities (Int.tmod r2 s.columns) (Int.tmod r1 s.rows) = true →
      revive s r1 r2 = some s) ∧
    ((0 < s.rows ∧ 0 < s.columns) → ∃ s1, revive s r1 r2 = some s1) ∧
    (revive s r1 r2).bind (fun s1 => revive s1 r3 r4) = revive s r1 r2 := by
  refine ⟨?_, ?_, ?_⟩
  · intro hr hc halive
    rw [revive_eq s h hr hc r1 r2 _ _ rfl rfl]
    have hy0 : 0 ≤ Int.tmod r1 s.rows := Int.tmod_nonneg _ (Int.ofNat_nonneg _)
    have hx0 : 0 ≤ Int.tmod r2 s.columns := Int.tmod_nonneg _ (Int.ofNat_nonneg _)
    have hid : gmap (revive_fn (Int.tmod r2 s.columns).toNat (Int.tmod r1 s.rows).toNat) s.entities
        = gmap (fun _ _ e => e) s.entities := by
      apply gmap_congr
      intro x y e he
      unfold revive_fn
      split
      · rename_i hsel
        have hxe : (x : Int) = Int.tmod r2 s.columns := by omega
        have hye : (y : Int) = Int.tmod r1 s.rows := by omega
        rw [← hxe, ← hye, alive_at_of_entity _ _ _ e he] at halive
        cases e with
        | mk a n =>
          simp only at halive
          subst halive
          rfl
      · rfl
    rw [hid, gmap_id]
  · rintro ⟨hr, hc⟩
    exact ⟨_, revive_eq s h hr hc r1 r2 _ _ rfl rfl⟩
  · by_cases hpos : 0 < s.rows ∧ 0 < s.columns
    · obtain ⟨hr, hc⟩ := hpos
      rw [revive_eq s h hr hc r1 r2 _ _ rfl rfl]
      simp only [Option.some_bind]
      have hsh := shaped_gmap s h
        (revive_fn (Int.tmod r2 s.columns).toNat (Int.tmod r1 s.rows).toNat)
      rw [revive_eq _ hsh hr hc r3 r4 (Int.tmod r2 s.columns).toNat (Int.tmod r1 s.rows).toNat
        (by rw [← hcol]) (by rw [← hrow])]
      simp only [gmap_gmap]
      congr 2
      apply gmap_congr
      intro x y e _
      unfold revive_fn
      split <;> simp_all
    · rw [revive_none s h hpos]
      rfl

/-- Witness for C17: on the 5 x 5 blinker grid the random values 2 and 2, then 7 and 2, both
select the live cell `(2, 2)`. -/
theorem revive_is_idempotent_witness :
    Shaped blinker_state ∧
    Int.tmod (7 : Nat) blinker_state.rows = Int.tmod (2 : Nat) blinker_state.rows ∧
    revive blinker_state 2 2 = some blinker_state ∧
    (revive blinker_state 2 2).bind (fun s1 => revive s1 7 2) = revive blinker_state 2 2 :=
  ⟨by decide, by decide,
    (revive_is_idempotent blinker_state (by decide) 2 2 7 2 (by decide) (by decide)).1
      (by decide) (by decide) (by decide),
    (revive_is_idempotent blinker_state (by decide) 2 2 7 2 (by decide) (by decide)).2.2⟩

/-- C18: on a grid whose shape matches the configuration (zero rows or zero columns
included) no index leaves the grid: `is_alive` reaches `entities[y][x]` only for
`0 <= x < columns` and `0 <= y < rows`, where the cell exists, and so it returns for every
coordinate; the counting pass and the rule pass, which fail on an out-of-range access,
both return. -/
theorem passes_index_in_bounds (s : State) (h : Shaped s) :
    (∀ x y j i : Int, is_alive_access s x y = some (j, i) →
      j = y ∧ i = x ∧ 0 ≤ x ∧ x < s.columns ∧ 0 ≤ y ∧ y < s.rows ∧
      ∃ e, entity_at s.entities j i = some e) ∧
    (∀ x y : Int, is_alive s x y = match is_alive_access s x y with
      | some idx => (entity_at s.entities idx.1 idx.2).map (fun e => e.alive)
      | none => some false) ∧
    (∀ x y : Int, ∃ b, is_alive s x y = some b) ∧
    (∃ s1, count_pass s = some s1) ∧
    (∃ s1 drawn, rule_pass s = some (s1, drawn)) := by
  have hes : s.entity_size ≠ 0 := by have := h.1; omega
  refine ⟨?_, is_alive_eq_access s hes, ?_, ⟨_, count_pass_eq s h⟩, ?_⟩
  · intro x y j i hacc
    obtain ⟨hj, hi, hx0, hx1, hy0, hy1⟩ := is_alive_access_inRange s h x y j i hacc
    subst hj
    subst hi
    exact ⟨rfl, rfl, hx0, hx1, hy0, hy1, entity_at_some_of_inRange s h _ _ hx0 hx1 hy0 hy1⟩
  · intro x y
    exact ⟨_, is_alive_eq s h x y⟩
  · obtain ⟨drawn, hd⟩ := rule_pass_eq s h
    exact ⟨_, drawn, hd⟩

/-- Witness for C18: on the 5 x 5 blinker grid `is_alive(3, 2)` reaches `entities[2][3]`,
a cell that exists, and `is_alive(5, 2)`, one column beyond the grid, reaches no cell; both
passes return there, as they do on the grid without rows and columns. -/
theorem passes_index_in_bounds_witness :
    Shaped blinker_state ∧
    is_alive_access blinker_state 3 2 = some (2, 3) ∧
    ((2 : Int) = 2 ∧ (3 : Int) = 3 ∧ (0 : Int) ≤ 3 ∧ (3 : Int) < blinker_state.columns ∧
      (0 : Int) ≤ 2 ∧ (2 : Int) < blinker_state.rows ∧
      ∃ e, entity_at blinker_state.entities 2 3 = some e) ∧
    is_alive_access blinker_state 5 2 = none ∧
    (is_alive blinker_state 3 2 = match is_alive_access blinker_state 3 2 with
      | some idx => (entity_at blinker_state.entities idx.1 idx.2).map (fun e => e.alive)
      | none => some false) ∧
    (∀ x y : Int, ∃ b, is_alive blinker_state x y = some b) ∧
    (∃ s1, count_pass blinker_state = some s1) ∧
    (∃ s1 drawn, rule_pass blinker_state = some (s1, drawn)) ∧
    Shaped empty_state ∧
    (∃ s1, count_pass empty_state = some s1) ∧
    (∃ s1 drawn, rule_pass empty_state = some (s1, drawn)) :=
  ⟨by decide, rfl,
    (passes_index_in_bounds blinker_state (by decide)).1 3 2 2 3 rfl,
    rfl,
    (passes_index_in_bounds blinker_state (by decide)).2.1 3 2,
    (passes_index_in_bounds blinker_state (by decide)).2.2.1,
    (passes_index_in_bounds blinker_state (by decide)).2.2.2.1,
    (passes_index_in_bounds blinker_state (by decide)).2.2.2.2,
    by decide,
    (passes_index_in_bounds empty_state (by decide)).2.2.2.1,
    (passes_index_in_bounds empty_state (by decide)).2.2.2.2⟩

/-- C19: the frame budget is 0 for fps cap 0 and `1000 / fps_cap` (unsigned division, so the
floor) for a positive cap; hence it is at least 1 ms exactly for `1 <= fps_cap <= 1000`, and
for every cap above 1000 it is 0 and no iteration calls `SDL_Delay`. -/
theorem frame_budget_arithmetic (fps_cap : Nat) :
    (fps_cap = 0 → default_delay fps_cap = 0) ∧
    (0 < fps_cap → default_delay fps_cap = 1000 / fps_cap) ∧
    (1 ≤ default_delay fps_cap ↔ (1 ≤ fps_cap ∧ fps_cap ≤ 1000)) ∧
    (1000 < fps_cap → default_delay fps_cap = 0 ∧
      ∀ (p : Pace) (t2_1 t2_2 t3 ms : Nat),
        Action.SDL_Delay ms ∉ (end_of_iteration (default_delay fps_cap) p t2_1 t2_2 t3).2) := by
  refine ⟨?_, ?_, ?_, ?_⟩
  · intro h
    simp [default_delay, h]
  · intro h
    simp [default_delay, h]
  · unfold default_delay
    by_cases h0 : fps_cap > 0
    · simp only [h0, if_true]
      constructor
      · intro h1
        refine ⟨h0, ?_⟩
        by_contra hgt
        have : 1000 / fps_cap = 0 := Nat.div_eq_of_lt (by omega)
        omega
      · rintro ⟨_, hle⟩
        exact (Nat.one_le_div_iff h0).mpr hle
    · simp only [h0, if_false]
      omega
  · intro h
    have hz : default_delay fps_cap = 0 := by
      unfold default_delay
      have h0 : fps_cap > 0 := by omega
      simp only [h0, if_true]
      exact Nat.div_eq_of_lt h
    refine ⟨hz, ?_⟩
    intro p t2_1 t2_2 t3 ms
    rw [hz]
    exact no_delay_of_zero_budget p t2_1 t2_2 t3 ms

/-- Witness for C19: the caps 0, 60 and 1001. -/
theorem frame_budget_arithmetic_witness :
    default_delay 0 = 0 ∧ default_delay 60 = 1000 / 60 ∧ 1 ≤ default_delay 60 ∧
    default_delay 1001 = 0 :=
  ⟨(frame_budget_arithmetic 0).1 rfl, (frame_budget_arithmetic 60).2.1 (by decide),
    (frame_budget_arithmetic 60).2.2.1.mpr (by decide),
    ((frame_budget_arithmetic 1001).2.2.2 (by decide)).1⟩

end GameOfLife
